import Mathlib

/-!
Shallow embedding of the ODS-E transformer engine
(`src/python/odse/transformer.py`) and proofs about the frozen claims.

Modelling conventions:
* Python/JSON scalars are the inductive `Json` below; JSON `null` and the
  Python `None` object coincide (exactly as after `json.loads`).
* Python floats are modelled as rationals (`ℚ`).  No claim in this
  development depends on binary rounding; the threshold comparisons that
  occur (0.95 / 0.80 reporting ratios) behave identically for doubles and
  rationals at the claimed inputs.
* `math.sqrt` (used only by the Switch transformer to derive `kVA`) is an
  explicit function parameter: every theorem about that transformer is
  proved for an arbitrary `sqrtFn`, hence also for the real square root.
* File/CSV/JSON *parsing* (`_parse_csv_rows` / `_parse_json`) is I/O and is
  outside the embedding: transformers take the already-parsed row list /
  JSON payload, exactly the value the Python loop iterates over.
* String helpers (`str.strip`, `str.lower`, `str.title`, `str.isdigit`)
  are modelled on ASCII, which is the character set of every vendor field
  involved in the claims.
-/

namespace ODSE

/-- JSON / Python value universe as produced by `json.loads`.  `null` also
stands for the Python `None` object (the two coincide for `.get` results). -/
inductive Json where
  | null : Json
  | bool : Bool → Json
  | num : ℚ → Json
  | str : String → Json
  | arr : List Json → Json
  | obj : List (String × Json) → Json

/-- Python `value is None` (JSON `null` is loaded as the `None` object). -/
def Json.isNull : Json → Bool
  | .null => true
  | _ => false

/-- Python `dict.get(k)` on a value that is statically known to be a dict
(missing key ↦ `None`, i.e. `.null`). -/
def jget (j : Json) (k : String) : Json :=
  match j with
  | .obj kvs => (kvs.lookup k).getD .null
  | _ => .null

/-- Python `value.get(k)` on an arbitrary value: raises `AttributeError`
when the receiver is not a dict. -/
def pyGet (j : Json) (k : String) : Except String Json :=
  match j with
  | .obj kvs => .ok ((kvs.lookup k).getD .null)
  | _ => .error "AttributeError"

/-- Python `value.get(k, default)` on an arbitrary value (default returned
only when the key is missing). -/
def pyGetD (j : Json) (k : String) (dflt : Json) : Except String Json :=
  match j with
  | .obj kvs => .ok ((kvs.lookup k).getD dflt)
  | _ => .error "AttributeError"

/-- Python truthiness of a JSON value. -/
def Json.truthy : Json → Bool
  | .null => false
  | .bool b => b
  | .num q => q ≠ 0
  | .str s => s ≠ ""
  | .arr xs => ¬ xs.isEmpty
  | .obj kvs => ¬ kvs.isEmpty

/-- Python `a or b` on values: `a` when truthy, else `b`. -/
def pyOr (a b : Json) : Json := if a.truthy then a else b

/-- Python `str.strip()` (ASCII whitespace model): drop leading and
trailing whitespace. -/
def pyStrip (s : String) : String :=
  String.mk (((s.data.dropWhile Char.isWhitespace).reverse.dropWhile Char.isWhitespace).reverse)

/-- Python `str.lower()` (ASCII model). -/
def pyLower (s : String) : String := String.mk (s.data.map Char.toLower)

/-- Python `str.upper()` (ASCII model). -/
def pyUpper (s : String) : String := String.mk (s.data.map Char.toUpper)

/-- `text.replace("Z", "+00:00")`: the pattern is a single character, so
the replacement expands every `Z` occurrence in place. -/
def pyReplaceZ (s : String) : String :=
  String.mk (s.data.foldr
    (fun c acc => if c = 'Z' then '+' :: '0' :: '0' :: ':' :: '0' :: '0' :: acc else c :: acc)
    [])

def pyTitleAux : Bool → List Char → List Char
  | _, [] => []
  | prevAlpha, c :: cs =>
    if c.isAlpha then
      (if prevAlpha then c.toLower else c.toUpper) :: pyTitleAux true cs
    else
      c :: pyTitleAux false cs

/-- Python `str.title()` (ASCII model): first letter of every alphabetic
run uppercased, the rest lowercased. -/
def pyTitle (s : String) : String := String.mk (pyTitleAux false s.data)

/-- Numeric value of a list of ASCII digit characters. -/
def digitsVal (ds : List Char) : Nat :=
  ds.foldl (fun a c => a * 10 + (c.toNat - 48)) 0

/-!
Rational arithmetic: the library `+ * - /` on `ℚ` are irreducible to the
elaborator, so concrete transformer runs could not be checked by `decide`
through them.  The embedding therefore uses the wrappers below, built on
the reducible `Rat.divInt`; the theorems `qadd_eq`, `qsub_eq`, `qmul_eq`
and `qdiv_eq` below prove each one *equal* to the corresponding library
operation (including the `x / 0 = 0` convention), so every occurrence can
be read as ordinary rational arithmetic.
-/

def qadd (a b : ℚ) : ℚ := Rat.divInt (a.num * b.den + b.num * a.den) (a.den * b.den)

def qsub (a b : ℚ) : ℚ := Rat.divInt (a.num * b.den - b.num * a.den) (a.den * b.den)

def qmul (a b : ℚ) : ℚ := Rat.divInt (a.num * b.num) (a.den * b.den)

def qdiv (a b : ℚ) : ℚ := Rat.divInt (a.num * b.den) (a.den * b.num)

/-- Power of ten as a rational. -/
def pow10 (e : Nat) : ℚ := (10 : ℚ) ^ e

def parseExpThen (neg : Bool) (mant : ℚ) (cs : List Char) : Option ℚ :=
  let signed := if neg then -mant else mant
  match cs with
  | [] => some signed
  | 'e' :: t =>
      (match t with
        | '+' :: u => some (false, u)
        | '-' :: u => some (true, u)
        | u => some (false, u)).bind fun (eneg, u) =>
        let ed := u.takeWhile Char.isDigit
        if ed.isEmpty ∨ (u.drop ed.length) ≠ [] then none
        else some (if eneg then qdiv signed (pow10 (digitsVal ed)) else qmul signed (pow10 (digitsVal ed)))
  | 'E' :: t =>
      (match t with
        | '+' :: u => some (false, u)
        | '-' :: u => some (true, u)
        | u => some (false, u)).bind fun (eneg, u) =>
        let ed := u.takeWhile Char.isDigit
        if ed.isEmpty ∨ (u.drop ed.length) ≠ [] then none
        else some (if eneg then qdiv signed (pow10 (digitsVal ed)) else qmul signed (pow10 (digitsVal ed)))
  | _ => none

/-- Python `float(str)` on a stripped string: optional sign, decimal
mantissa, optional exponent.  (`inf`/`nan`/digit underscores are not
modelled; no claim involves them.) -/
def parseFloatChars (cs : List Char) : Option ℚ :=
  let (neg, cs1) :=
    match cs with
    | '+' :: t => (false, t)
    | '-' :: t => (true, t)
    | t => (false, t)
  let ip := cs1.takeWhile Char.isDigit
  let cs2 := cs1.drop ip.length
  match cs2 with
  | '.' :: t =>
      let fp := t.takeWhile Char.isDigit
      let cs3 := t.drop fp.length
      if ip.isEmpty ∧ fp.isEmpty then none
      else
        parseExpThen neg (qadd (digitsVal ip : ℚ) (qdiv (digitsVal fp : ℚ) (pow10 fp.length))) cs3
  | _ =>
      if ip.isEmpty then none
      else parseExpThen neg (digitsVal ip : ℚ) cs2

def parseFloat (s : String) : Option ℚ := parseFloatChars s.data

/-- `_to_float` on a JSON/Python value: `None` on failure, never raises.
Python `float(bool)` is 0/1; `float` of a container raises `TypeError`,
which `_to_float` converts to `None`. -/
def toFloat : Json → Option ℚ
  | .null => none
  | .bool b => some (if b then 1 else 0)
  | .num q => some q
  | .str s =>
      let t := pyStrip s
      if t = "" then none else parseFloat t
  | .arr _ => none
  | .obj _ => none

/-- `_to_float` restricted to an optional CSV cell (string or absent). -/
def toFloatStr (v : Option String) : Option ℚ :=
  match v with
  | none => none
  | some s =>
      let t := pyStrip s
      if t = "" then none else parseFloat t

/-- Python `int(float)`: truncation toward zero. -/
def truncQ (q : ℚ) : Int := if 0 ≤ q then ⌊q⌋ else ⌈q⌉

/-- `_to_int`: `_to_float` then truncate toward zero; absence propagates. -/
def toInt (v : Json) : Option Int := (toFloat v).map truncQ

/-- `_to_int` on an optional CSV cell. -/
def toIntStr (v : Option String) : Option Int := (toFloatStr v).map truncQ

/-- A CSV row as produced by `csv.DictReader`: field name ↦ cell text. -/
def Row := List (String × String)

/-- Python `row[key]` presence / value lookup on a CSV row. -/
def rowGet (row : Row) (k : String) : Option String := List.lookup k row

/-- `_first_value`: first alias whose value is present and not `None`/`""`. -/
def firstValue (row : Row) (keys : List String) : Option String :=
  match keys with
  | [] => none
  | k :: ks =>
      match rowGet row k with
      | some v => if v ≠ "" then some v else firstValue row ks
      | none => firstValue row ks

/-! ### Timestamp normalizer (`_to_iso8601`, `_is_offset_tz`) -/

/-- Naive civil date-time (what `datetime` stores besides the tzinfo). -/
structure DT6 where
  y : Nat
  m : Nat
  d : Nat
  hh : Nat
  mi : Nat
  ss : Nat
deriving DecidableEq

/-- A fixed-offset tzinfo as parsed from `±HH:MM`. -/
structure TzOff where
  neg : Bool
  th : Nat
  tm : Nat
deriving DecidableEq

/-- A parsed `datetime`: naive fields plus optional fixed offset
(microseconds are parsed but immediately dropped by the caller via
`.replace(microsecond=0)`, so they are not retained). -/
structure PyDateTime where
  core : DT6
  tz : Option TzOff
deriving DecidableEq

def isLeap (y : Nat) : Bool := y % 4 = 0 ∧ (y % 100 ≠ 0 ∨ y % 400 = 0)

def daysInMonth (y m : Nat) : Nat :=
  if m = 2 then (if isLeap y then 29 else 28)
  else if m = 4 ∨ m = 6 ∨ m = 9 ∨ m = 11 then 30
  else 31

/-- Field validation performed by the `datetime` constructor. -/
def validDate (y m d : Nat) : Bool :=
  1 ≤ y ∧ y ≤ 9999 ∧ 1 ≤ m ∧ m ≤ 12 ∧ 1 ≤ d ∧ d ≤ daysInMonth y m

def validTime (hh mi ss : Nat) : Bool := hh ≤ 23 ∧ mi ≤ 59 ∧ ss ≤ 59

def digitChar (n : Nat) : Char := Char.ofNat (48 + n % 10)

def pad2 (n : Nat) : String := String.mk [digitChar (n / 10), digitChar n]

def pad4 (n : Nat) : String :=
  String.mk [digitChar (n / 1000), digitChar (n / 100), digitChar (n / 10), digitChar n]

/-- `datetime.isoformat()` of a naive datetime with `microsecond=0`. -/
def fmtDT6 (dt : DT6) : String :=
  pad4 dt.y ++ "-" ++ pad2 dt.m ++ "-" ++ pad2 dt.d ++ "T" ++
    pad2 dt.hh ++ ":" ++ pad2 dt.mi ++ ":" ++ pad2 dt.ss

/-- The offset suffix `isoformat()` prints for a fixed-offset tzinfo. -/
def fmtTzOff (o : TzOff) : String :=
  (if o.neg then "-" else "+") ++ pad2 o.th ++ ":" ++ pad2 o.tm

/-- Civil date from a day count measured from 0000-03-01 (proleptic
Gregorian; the standard era/year-of-era decomposition). -/
def civilFromDays (z : Nat) : Nat × Nat × Nat :=
  let era := z / 146097
  let doe := z % 146097
  let yoe := (doe - doe / 1460 + doe / 36524 - doe / 146096) / 365
  let doy := doe - (365 * yoe + yoe / 4 - yoe / 100)
  let mp := (5 * doy + 2) / 153
  let d := doy - (153 * mp + 2) / 5 + 1
  let m := if mp < 10 then mp + 3 else mp - 9
  (yoe + era * 400 + (if m ≤ 2 then 1 else 0), m, d)

/-- Epoch second of 0001-01-01T00:00:00Z — the first instant
`datetime.fromtimestamp` accepts in UTC. -/
def epochMin : Int := -62135596800

/-- Epoch second of 9999-12-31T23:59:59Z — the last such instant. -/
def epochMax : Int := 253402300799

/-- UTC civil time of an in-range epoch second. -/
def epochToDT (n : Int) : DT6 :=
  let t := (n - epochMin).toNat
  let days := t / 86400
  let sod := t % 86400
  let c := civilFromDays (days + 306)
  ⟨c.1, c.2.1, c.2.2, sod / 3600, sod / 60 % 60, sod % 60⟩

/-- Numeric branch of `_to_iso8601`:
`datetime.fromtimestamp(float(value), timezone.utc).replace(microsecond=0)
.isoformat().replace("+00:00", "Z")`.  `fromtimestamp` raises outside the
year range 1..9999 (caught, yielding `None`); dropping the microsecond
floors the fractional epoch value; the formatted body contains no `+`, so
the `replace` rewrites exactly the offset suffix into `Z`. -/
def toIso8601Num (q : ℚ) : Option String :=
  let n := ⌊q⌋
  if n < epochMin ∨ epochMax < n then none
  else some (fmtDT6 (epochToDT n) ++ "Z")

def readNDigitsAux : Nat → Nat → List Char → Option (Nat × List Char)
  | 0, acc, cs => some (acc, cs)
  | n + 1, acc, c :: cs =>
      if c.isDigit then readNDigitsAux n (acc * 10 + (c.toNat - 48)) cs else none
  | _ + 1, _, [] => none

/-- Read exactly `n` digit characters. -/
def readNDigits (n : Nat) (cs : List Char) : Option (Nat × List Char) :=
  readNDigitsAux n 0 cs

def expectChar (ch : Char) : List Char → Option (List Char)
  | c :: cs => if c = ch then some cs else none
  | [] => none

/-- Optional fractional-seconds group of the strict ISO time grammar
(`.fff` or `.ffffff`); the digits are consumed and dropped. -/
def skipFrac : List Char → Option (List Char)
  | '.' :: t =>
      let ds := t.takeWhile Char.isDigit
      if ds.length = 3 ∨ ds.length = 6 then some (t.drop ds.length) else none
  | cs => some cs

/-- Trailing timezone of the strict ISO grammar: empty, or
`±HH:MM[:SS[.ffffff]]` with the offset below 24 hours. -/
def parseIsoTz (cs : List Char) : Option (Option TzOff) :=
  match cs with
  | [] => some none
  | c :: t =>
      if c = '+' ∨ c = '-' then
        (readNDigits 2 t).bind fun (th, t1) =>
        (expectChar ':' t1).bind fun t2 =>
        (readNDigits 2 t2).bind fun (tm, t3) =>
        let done : List Char → Option (Option TzOff) := fun rest =>
          if rest = [] ∧ th ≤ 23 ∧ tm ≤ 59 then some (some ⟨c = '-', th, tm⟩) else none
        match t3 with
        | ':' :: t4 =>
            (readNDigits 2 t4).bind fun (ts, t5) =>
            if ts ≤ 59 then (skipFrac t5).bind done else none
        | rest => done rest
      else none

/-- Time-of-day part of the strict ISO grammar:
`HH[:MM[:SS[.ffffff]]]` followed by the optional offset. -/
def parseIsoTime (cs : List Char) : Option ((Nat × Nat × Nat) × Option TzOff) :=
  (readNDigits 2 cs).bind fun (hh, t1) =>
  match t1 with
  | ':' :: t2 =>
      (readNDigits 2 t2).bind fun (mi, t3) =>
      (match t3 with
        | ':' :: t4 =>
            (readNDigits 2 t4).bind fun (ss, t5) =>
            (skipFrac t5).bind fun t6 =>
            (parseIsoTz t6).map fun tz => ((hh, mi, ss), tz)
        | rest => (parseIsoTz rest).map fun tz => ((hh, mi, 0), tz))
  | rest => (parseIsoTz rest).map fun tz => ((hh, 0, 0), tz)

/-- `datetime.fromisoformat` (strict grammar): `YYYY-MM-DD`, optionally
followed by one arbitrary separator character and a time, optionally
followed by a fixed offset.  Field ranges are validated as by the
`datetime` constructor. -/
def pyFromIso (s : String) : Option PyDateTime :=
  (readNDigits 4 s.data).bind fun (y, t1) =>
  (expectChar '-' t1).bind fun t2 =>
  (readNDigits 2 t2).bind fun (m, t3) =>
  (expectChar '-' t3).bind fun t4 =>
  (readNDigits 2 t4).bind fun (d, t5) =>
  match t5 with
  | [] => if validDate y m d then some ⟨⟨y, m, d, 0, 0, 0⟩, none⟩ else none
  | _sep :: t6 =>
      (parseIsoTime t6).bind fun ((hh, mi, ss), tz) =>
      if validDate y m d ∧ validTime hh mi ss then some ⟨⟨y, m, d, hh, mi, ss⟩, tz⟩ else none

/-- Digit field of `strptime` for `%m`/`%d`/`%H`/`%M`/`%S`: one or two
consecutive digits (a longer digit run cannot match, since each field is
followed by a non-digit literal or the end of the string). -/
def read1or2 (cs : List Char) : Option (Nat × List Char) :=
  let ds := cs.takeWhile Char.isDigit
  if ds.length = 1 ∨ ds.length = 2 then some (digitsVal ds, cs.drop ds.length) else none

/-- `%Y` of `strptime`: exactly four digits. -/
def read4Exact (cs : List Char) : Option (Nat × List Char) :=
  let ds := cs.takeWhile Char.isDigit
  if ds.length = 4 then some (digitsVal ds, cs.drop ds.length) else none

/-- `datetime.strptime(text, "%Y<sep>%m<sep>%d %H:%M:%S")` for a date
separator `sepc` (`-` or `/`), including the constructor validation. -/
def parseLegacyDateTime (sepc : Char) (s : String) : Option DT6 :=
  (read4Exact s.data).bind fun (y, t1) =>
  (expectChar sepc t1).bind fun t2 =>
  (read1or2 t2).bind fun (m, t3) =>
  (expectChar sepc t3).bind fun t4 =>
  (read1or2 t4).bind fun (d, t5) =>
  (expectChar ' ' t5).bind fun t6 =>
  (read1or2 t6).bind fun (hh, t7) =>
  (expectChar ':' t7).bind fun t8 =>
  (read1or2 t8).bind fun (mi, t9) =>
  (expectChar ':' t9).bind fun t10 =>
  (read1or2 t10).bind fun (ss, t11) =>
  if t11 = [] ∧ validDate y m d ∧ validTime hh mi ss then
    some ⟨y, m, d, hh, mi, ss⟩
  else none

/-- `datetime.strptime(text, "%Y-%m-%d")`: date-only, implies midnight. -/
def parseLegacyDate (s : String) : Option DT6 :=
  (read4Exact s.data).bind fun (y, t1) =>
  (expectChar '-' t1).bind fun t2 =>
  (read1or2 t2).bind fun (m, t3) =>
  (expectChar '-' t3).bind fun t4 =>
  (read1or2 t4).bind fun (d, t5) =>
  if t5 = [] ∧ validDate y m d then some ⟨y, m, d, 0, 0, 0⟩ else none

/-- The `strptime` fallback chain of `_to_iso8601`, in source order. -/
def parseLegacy (s : String) : Option DT6 :=
  (parseLegacyDateTime '-' s).orElse fun _ =>
  (parseLegacyDateTime '/' s).orElse fun _ =>
  parseLegacyDate s

/-- `_is_offset_tz`: exactly six characters shaped `±HH:MM` (`isdigit` on
the two digit pairs, ASCII model). -/
def isOffsetTz (s : String) : Bool :=
  match s.data with
  | [c0, c1, c2, c3, c4, c5] =>
      (c0 = '+' ∨ c0 = '-') ∧ c1.isDigit ∧ c2.isDigit ∧ c3 = ':' ∧ c4.isDigit ∧ c5.isDigit
  | _ => false

/-- The suffix appended to a naive parse result:
`timezone if timezone and _is_offset_tz(timezone) else "Z"`
(an absent or empty override fails both tests). -/
def tzSuffix (tz : Option String) : String :=
  match tz with
  | some o => if isOffsetTz o then o else "Z"
  | none => "Z"

/-- String branch of `_to_iso8601`: strip, reject empty, substitute every
literal `Z` with `+00:00`, try the strict ISO parse (keeping an explicit
offset as parsed, otherwise appending the override/`Z` suffix), then the
three legacy `strptime` formats with the same suffix rule. -/
def toIso8601Str (text : String) (tz : Option String) : Option String :=
  let t := pyStrip text
  if t = "" then none
  else
    let cand := pyReplaceZ t
    match pyFromIso cand with
    | some dt =>
        match dt.tz with
        | none => some (fmtDT6 dt.core ++ tzSuffix tz)
        | some off => some (fmtDT6 dt.core ++ fmtTzOff off)
    | none =>
        match parseLegacy t with
        | some c => some (fmtDT6 c ++ tzSuffix tz)
        | none => none

/-- `_to_iso8601` on a JSON/Python value.  Python `bool` is an `int`
subclass, so it takes the numeric branch; `str()` of a list/dict begins
with a bracket and can match none of the formats, yielding `None`. -/
def toIso8601 (v : Json) (tz : Option String) : Option String :=
  match v with
  | .null => none
  | .num q => toIso8601Num q
  | .bool b => toIso8601Num (if b then 1 else 0)
  | .str s => toIso8601Str s tz
  | .arr _ => none
  | .obj _ => none

/-- `_to_iso8601` on an optional CSV cell. -/
def toIso8601Field (v : Option String) (tz : Option String) : Option String :=
  match v with
  | none => none
  | some s => toIso8601Str s tz

/-- Decidable equality for `Except`, so that concrete transformer runs
(including raised-exception outcomes) can be checked by `decide`. -/
instance {ε α : Type} [DecidableEq ε] [DecidableEq α] : DecidableEq (Except ε α) := fun a b =>
  match a, b with
  | .ok x, .ok y =>
      if h : x = y then .isTrue (h ▸ rfl) else .isFalse (fun hh => h (Except.ok.inj hh))
  | .error x, .error y =>
      if h : x = y then .isTrue (h ▸ rfl) else .isFalse (fun hh => h (Except.error.inj hh))
  | .ok _, .error _ => .isFalse (fun hh => Except.noConfusion hh)
  | .error _, .ok _ => .isFalse (fun hh => Except.noConfusion hh)

/-! ### Canonical records, options, shared assembler -/

/-- The canonical ODS-E record.  Required fields are plain; each optional
field is an `Option`, where `none` models omission of the key (no field is
ever emitted as a null placeholder in this model by construction). -/
structure Record where
  timestamp : String
  kWh : ℚ
  error_type : String
  error_code : Option String := none
  asset_id : Option String := none
  kW : Option ℚ := none
  kVA : Option ℚ := none
  kVAr : Option ℚ := none
  kVArh : Option ℚ := none
  PF : Option ℚ := none
  voltage_ac : Option ℚ := none
  current_ac : Option ℚ := none
  frequency : Option ℚ := none
  temperature : Option ℚ := none
  oem_error_code : Option String := none
deriving DecidableEq

/-- The canonical state enum. -/
def canonicalStates : List String :=
  ["normal", "warning", "critical", "fault", "offline", "standby", "unknown"]

/-- The per-call keyword-argument bag (`**kwargs`).  `none` models an
absent key as well as an explicit `None` value (they behave identically
through `kwargs.get`). -/
structure Opts where
  asset_id : Option String := none
  timezone : Option String := none
  interval_minutes : Option ℚ := none
  expected_devices : Option Int := none

/-- `(kwargs.get("interval_minutes", dflt) or dflt) / 60.0`: a missing,
`None` or zero (falsy) value falls back to the vendor default. -/
def intervalHours (o : Opts) (dflt : ℚ) : ℚ :=
  qdiv (match o.interval_minutes with
        | some x => if x = 0 then dflt else x
        | none => dflt) 60

/-- `if asset_id: record["asset_id"] = asset_id` — supplied and non-empty
(truthy), otherwise the field is omitted. -/
def assetOpt (o : Opts) : Option String :=
  match o.asset_id with
  | some a => if a = "" then none else some a
  | none => none

/-- Python `str(value)`.  The claims only stringify ints and strings;
float and container reprs are rendered in a simplified form (`a/b` for a
non-integer rational) that no theorem depends on. -/
def pyStr (j : Json) : String :=
  match j with
  | .null => "None"
  | .bool b => if b then "True" else "False"
  | .num q => if q.den = 1 then toString q.num else toString q.num ++ "/" ++ toString q.den
  | .str s => s
  | .arr _ => "<list>"
  | .obj _ => "<dict>"

/-- `_base_record`: canonical assembly used by the FIMER, SolarEdge,
Fronius, SMA and SolisCloud transformers.  `kWh` is floored at 0;
`error_code` is emitted (stringified) only when a non-`None` value was
resolved; `asset_id` only when supplied and truthy. -/
def baseRecord (timestamp : String) (kwh : ℚ) (errorType : String)
    (errorCode : Json) (assetId : Option String) : Record :=
  { timestamp := timestamp
    kWh := max kwh 0
    error_type := errorType
    error_code := if errorCode.isNull then none else some (pyStr errorCode)
    asset_id := match assetId with
      | some a => if a = "" then none else some a
      | none => none }

/-! ### Huawei transformer -/

/-- `HuaweiTransformer.ERROR_CODES` in dict insertion order. -/
def HUAWEI_ERROR_CODES : List (String × List Int) :=
  [("normal", [0, 1, 2, 3, 256, 512, 1025, 1026, 1280, 1281, 1536, 1792, 2048, 2304, 40960, 49152]),
   ("warning", [513, 514, 772, 773, 774]),
   ("critical", [768, 770, 771, 45056]),
   ("fault", [769, 1024])]

def huaweiLookupCode (c : Int) : List (String × List Int) → String
  | [] => "unknown"
  | (et, codes) :: rest => if codes.contains c then et else huaweiLookupCode c rest

/-- `HuaweiTransformer._map_error_code`: `run_state == 0` wins, then the
code tables in insertion order, defaulting to `unknown`. -/
def huaweiMapErrorCode (code : Option Int) (runState : Option Int) : String :=
  if runState = some 0 then "offline"
  else
    match code with
    | none => "unknown"
    | some c => huaweiLookupCode c HUAWEI_ERROR_CODES

/-- One iteration of the `HuaweiTransformer.transform` row loop. -/
def huaweiRowRecord (o : Opts) (ih : ℚ) (row : Row) : Option Record :=
  match toIso8601Field (firstValue row ["timestamp", "Time", "Timestamp", "time"]) o.timezone with
  | none => none
  | some ts =>
      let power_kw := toFloatStr (firstValue row ["power", "Active Power(kW)", "Power", "power_kw"])
      let inverter_state := toIntStr (firstValue row ["inverter_state", "Inverter State", "State", "status"])
      let run_state := toIntStr (firstValue row ["run_state", "Running State", "Run State"])
      some { timestamp := ts
             kWh := max (qmul (power_kw.getD 0) ih) 0
             error_type := huaweiMapErrorCode inverter_state run_state
             error_code := some (match inverter_state with
               | none => "unknown"
               | some c => toString c)
             asset_id := assetOpt o }

/-- `HuaweiTransformer.transform` over the parsed CSV rows. -/
def huaweiTransform (rows : List Row) (o : Opts) : List Record :=
  rows.filterMap (huaweiRowRecord o (intervalHours o 5))

/-! ### Enphase transformer -/

/-- `EnphaseTransformer._derive_status`. -/
def enphaseDeriveStatus (devicesReporting : Option Int) (expectedDevices : Option Int) : String :=
  match devicesReporting with
  | none => "offline"
  | some d =>
      match expectedDevices with
      | none => if d = 0 then "offline" else "normal"
      | some e =>
          if e ≤ 0 then (if d = 0 then "offline" else "normal")
          else
            let ratio : ℚ := qdiv (d : ℚ) (e : ℚ)
            if ratio ≥ Rat.divInt 95 100 then "normal"
            else if ratio ≥ Rat.divInt 80 100 then "warning"
            else if 0 < d then "critical"
            else "offline"

/-- The item list `EnphaseTransformer.transform` iterates over. -/
def enphaseItems (payload : Json) : List Json :=
  match payload with
  | .obj kvs =>
      match jget (.obj kvs) "production" with
      | .arr xs => xs
      | _ => [.obj kvs]
  | .arr xs => xs
  | _ => []

/-- One iteration of the `EnphaseTransformer.transform` item loop.
`_to_iso8601` is applied to the already-coerced `end_at` float, so only
its `None`/numeric branches are reachable here. -/
def enphaseItemRecord (o : Opts) (item : Json) : Option Record :=
  match item with
  | .obj kvs =>
      let item := Json.obj kvs
      let end_at := toFloat (jget item "end_at")
      let wh_del := toFloat (jget item "wh_del")
      let ts := match end_at with
        | none => none
        | some q => toIso8601Num q
      match ts, wh_del with
      | some t, some w =>
          some { timestamp := t
                 kWh := max (qdiv w 1000) 0
                 error_type := enphaseDeriveStatus (toInt (jget item "devices_reporting")) o.expected_devices
                 asset_id := assetOpt o }
      | _, _ => none
  | _ => none

/-- `EnphaseTransformer.transform` over the parsed JSON payload. -/
def enphaseTransform (payload : Json) (o : Opts) : List Record :=
  (enphaseItems payload).filterMap (enphaseItemRecord o)

/-! ### Solarman transformer (cumulative counter) -/

/-- `SolarmanTransformer.STATE_MAPPING` in dict insertion order. -/
def SOLARMAN_STATE_MAPPING : List (String × String) :=
  [("Normal", "normal"), ("Operating", "normal"), ("Warning", "warning"),
   ("Fault", "fault"), ("Error", "fault"), ("Offline", "offline"),
   ("Standby", "standby"), ("Degraded", "warning"), ("Disconnected", "offline"),
   ("No Data", "offline"), ("Idle", "standby"), ("Waiting", "standby"),
   ("Online", "normal"), ("1", "normal"), ("0", "offline")]

/-- The power-sign fallback chain at the end of
`SolarmanTransformer._map_state`. -/
def solarmanFallbackState (powerW : Option ℚ) : String :=
  match powerW with
  | none => "unknown"
  | some p => if 0 < p then "normal" else if p = 0 then "offline" else "warning"

/-- `SolarmanTransformer._map_state`: table lookup on the stripped state
string, retried via `str.title()`, then the power-sign fallback. -/
def solarmanMapState (deviceState : Option String) (powerW : Option ℚ) : String :=
  match deviceState with
  | some s =>
      let key := pyStrip s
      match SOLARMAN_STATE_MAPPING.lookup key with
      | some v => v
      | none =>
          match SOLARMAN_STATE_MAPPING.lookup (pyTitle key) with
          | some v => v
          | none => solarmanFallbackState powerW
  | none => solarmanFallbackState powerW

def SOLARMAN_GEN_ALIASES : List String :=
  ["generation", "Generation(kWh)", "Total Generation", "Cumulative Energy"]

/-- The cumulative-energy cell of a Solarman row, after coercion. -/
def solarmanGeneration (row : Row) : Option ℚ :=
  toFloatStr (firstValue row SOLARMAN_GEN_ALIASES)

/-- One iteration of the `SolarmanTransformer.transform` row loop:
given the `prev_generation` accumulator, produce the updated accumulator
and the record emitted for this row (if any).  A row whose timestamp does
not parse, or whose cumulative field is absent/non-numeric
(`generation_missing`), is skipped via `continue` — so the
`generation_missing and power_w > 0` re-estimation branch further down is
kept verbatim but can never fire. -/
def solarmanStep (o : Opts) (ih : ℚ) (prev : Option ℚ) (row : Row) :
    Option ℚ × Option Record :=
  match toIso8601Field (firstValue row ["update_time", "Update Time", "Time", "Timestamp"]) o.timezone with
  | none => (prev, none)
  | some ts =>
      let generation := solarmanGeneration row
      let generationMissing := generation.isNone
      match generation with
      | none => (prev, none)
      | some g =>
          let kwh := match prev with
            | none => 0
            | some p => max (qsub g p) 0
          let deviceStateRaw := firstValue row ["device_state", "Device State", "Status", "State"]
          let powerW := toFloatStr (firstValue row ["power", "Power(W)", "Active Power", "Output Power"])
          let rec0 : Record :=
            { timestamp := ts
              kWh := kwh
              error_type := solarmanMapState deviceStateRaw powerW
              -- str(device_state_raw) if device_state_raw not in (None, "") else "inferred";
              -- `_first_value` never returns "" so the test reduces to presence
              error_code := some (deviceStateRaw.getD "inferred")
              asset_id := assetOpt o }
          let rec1 := match powerW with
            | some pw =>
                { rec0 with
                  kW := some (qdiv pw 1000)
                  kWh := if generationMissing ∧ 0 < pw then qmul (qdiv pw 1000) ih else rec0.kWh }
            | none => rec0
          (some g, some rec1)

def solarmanGo (o : Opts) (ih : ℚ) : Option ℚ → List Row → List Record
  | _, [] => []
  | prev, row :: rest =>
      match solarmanStep o ih prev row with
      | (prev1, some r) => r :: solarmanGo o ih prev1 rest
      | (prev1, none) => solarmanGo o ih prev1 rest

/-- `SolarmanTransformer.transform`: the `prev_generation` accumulator is
a local variable of one call, initialised to `None`. -/
def solarmanTransform (rows : List Row) (o : Opts) : List Record :=
  solarmanGo o (intervalHours o 5) none rows

/-! ### Switch transformer (meter channels) -/

/-- `SwitchTransformer._map_switch_error`. -/
def switchMapError (power : Option ℚ) : String :=
  match power with
  | none => "unknown"
  | some p => if p = 0 then "standby" else if 0 < p then "normal" else "warning"

/-- `_switch_error_code`. -/
def switchErrorCode (power : Option ℚ) : String :=
  match power with
  | none => "unknown"
  | some p => if p = 0 then "0" else "1"

/-- One iteration of the `SwitchTransformer.transform` row loop.
`math.sqrt` is the parameter `sqrtFn` (see the header note); the source
guard `if kva and kva > 0` is `kva ≠ None ∧ kva ≠ 0 ∧ kva > 0`, i.e.
`kva > 0` on a present value. -/
def switchRowRecord (sqrtFn : ℚ → ℚ) (o : Opts) (ih : ℚ) (row : Row) : Option Record :=
  match toIso8601Field (firstValue row ["timestampISO", "timestamp", "Time", "Date/Time"]) o.timezone with
  | none => none
  | some ts =>
      let dP1 := toFloatStr (rowGet row "dP1")
      let dP2 := toFloatStr (rowGet row "dP2")
      let dQ1 := toFloatStr (rowGet row "dQ1")
      let dQ2 := toFloatStr (rowGet row "dQ2")
      let powerW := if dP1.isSome then dP1 else dP2
      let reactiveW := if dQ1.isSome then dQ1 else dQ2
      let pKw := qdiv (powerW.getD 0) 1000
      let qKvar := qdiv (reactiveW.getD 0) 1000
      let kva : Option ℚ :=
        if powerW.isSome ∨ reactiveW.isSome then some (sqrtFn (qadd (qmul pKw pKw) (qmul qKvar qKvar))) else none
      let pf : Option ℚ :=
        match kva with
        | some k => if 0 < k then some (qdiv pKw k) else none
        | none => none
      some { timestamp := ts
             kWh := max (qmul pKw ih) 0
             error_type := switchMapError powerW
             error_code := some (switchErrorCode powerW)
             kVArh := reactiveW.map fun _ => qmul qKvar ih
             kVA := kva
             PF := pf.map fun p => max 0 (min 1 p)
             asset_id := assetOpt o }

/-- `SwitchTransformer.transform` over the parsed CSV rows. -/
def switchTransform (sqrtFn : ℚ → ℚ) (rows : List Row) (o : Opts) : List Record :=
  rows.filterMap (switchRowRecord sqrtFn o (intervalHours o 15))

/-! ### SolaxCloud transformer -/

/-- `SolaxCloudTransformer.STATUS_MAPPING`. -/
def SOLAX_STATUS_MAPPING : List (String × String) :=
  [("100", "standby"), ("101", "standby"), ("102", "normal"), ("103", "warning"),
   ("104", "fault"), ("105", "warning"), ("106", "standby"), ("107", "warning"),
   ("108", "standby"), ("109", "standby"), ("110", "standby"), ("111", "standby"),
   ("112", "standby"), ("113", "warning"), ("114", "standby"), ("130", "warning"),
   ("131", "normal"), ("132", "warning"), ("133", "warning")]

def Json.isObj : Json → Bool
  | .obj _ => true
  | _ => false

/-- `_extract_solax_records`: unwrap `result` / `data` (dict or list of
dicts), or accept a bare top-level list of dicts. -/
def extractSolaxRecords (payload : Json) : List Json :=
  match payload with
  | .obj kvs =>
      let p := Json.obj kvs
      match jget p "result" with
      | .obj r => [.obj r]
      | .arr xs => xs.filter Json.isObj
      | _ =>
          match jget p "data" with
          | .obj r => [.obj r]
          | .arr xs => xs.filter Json.isObj
          | _ => []
  | .arr xs => xs.filter Json.isObj
  | _ => []

/-- Timestamp resolution for one SolaxCloud entry:
`_to_iso8601(rec.get("uploadTime") or rec.get("timestamp"), timezone)`. -/
def solaxEntryTs (o : Opts) (rec : Json) : Option String :=
  toIso8601 (pyOr (jget rec "uploadTime") (jget rec "timestamp")) o.timezone

/-- The `SolaxCloudTransformer.transform` record loop.  Inside the loop
body `payload.get("code")` is evaluated on the *payload* before the
`isinstance(payload, dict)` guard of the same `if`, so a non-dict payload
raises `AttributeError` as soon as one entry passes the timestamp check;
that raising access is `pyGet`.  (When `pyGet` succeeds the payload is a
dict, so the subsequent `isinstance` test is true and is elided.) -/
def solaxGo (payload : Json) (o : Opts) (ih : ℚ) : List Json → Except String (List Record)
  | [] => .ok []
  | rec :: rest =>
      match solaxEntryTs o rec with
      | none => solaxGo payload o ih rest
      | some ts =>
          let acPowerW := toFloat (jget rec "acpower")
          let yieldToday := toFloat (jget rec "yieldtoday")
          let kwh := match yieldToday with
            | some y => y
            | none => max (qmul (qdiv (acPowerW.getD 0) 1000) ih) 0
          let statusCode : Option String :=
            if (jget rec "inverterStatus").isNull then none
            else some (pyStr (jget rec "inverterStatus"))
          -- STATUS_MAPPING.get(status_code or "", "unknown")
          let errorType := (SOLAX_STATUS_MAPPING.lookup (statusCode.getD "")).getD "unknown"
          (pyGet payload "code").bind fun code =>
          (solaxGo payload o ih rest).map fun tail =>
          { timestamp := ts
            kWh := kwh
            error_type := errorType
            -- status_code or "unknown" (None and "" are falsy)
            error_code := some (match statusCode with
              | some s => if s = "" then "unknown" else s
              | none => "unknown")
            kW := acPowerW.map (qdiv · 1000)
            oem_error_code := if code.isNull then none else some (pyStr code)
            asset_id := assetOpt o } :: tail

/-- `SolaxCloudTransformer.transform` over the parsed JSON payload;
`Except.error` models an uncaught exception escaping the call. -/
def solaxTransform (payload : Json) (o : Opts) : Except String (List Record) :=
  solaxGo payload o (intervalHours o 5) (extractSolaxRecords payload)

/-! ### SolarEdge transformer -/

/-- `SolarEdgeTransformer.MODE_MAPPING`. -/
def SOLAREDGE_MODE_MAPPING : List (String × String) :=
  [("MPPT", "normal"), ("ON", "normal"), ("PRODUCTION", "normal"),
   ("OFF", "offline"), ("SLEEPING", "standby"), ("STARTING", "standby"),
   ("SHUTTING_DOWN", "standby"), ("STANDBY", "standby"), ("FAULT", "fault"),
   ("ERROR", "fault"), ("MAINTENANCE", "warning"), ("LOCKED_GRID", "warning"),
   ("LOCKED_INTERNAL", "warning"), ("NIGHT_MODE", "standby")]

/-- The unrolled `L1Data` field loop of the SolarEdge telemetry branch:
`apparentPower` / `reactivePower` scale by 1000 into `kVA` / `kVAr`;
`cosPhi` has `scale = None`, so its value is copied into `PF` verbatim;
`acVoltage` / `acCurrent` / `acFrequency` pass through.  Only these six
optional fields of the record are touched. -/
def solarEdgeL1Fields (l1 : Json) (rec1 : Record) : Record :=
  let rec2 := match toFloat (jget l1 "apparentPower") with
    | some v => { rec1 with kVA := some (qdiv v 1000) }
    | none => rec1
  let rec3 := match toFloat (jget l1 "reactivePower") with
    | some v => { rec2 with kVAr := some (qdiv v 1000) }
    | none => rec2
  let rec4 := match toFloat (jget l1 "cosPhi") with
    | some v => { rec3 with PF := some v }
    | none => rec3
  let rec5 := match toFloat (jget l1 "acVoltage") with
    | some v => { rec4 with voltage_ac := some v }
    | none => rec4
  let rec6 := match toFloat (jget l1 "acCurrent") with
    | some v => { rec5 with current_ac := some v }
    | none => rec5
  match toFloat (jget l1 "acFrequency") with
  | some v => { rec6 with frequency := some v }
  | none => rec6

/-- One iteration of the telemetry loop of `SolarEdgeTransformer.transform`
(the `data.telemetries` branch).  The `L1Data` field loop is the unrolled
`solarEdgeL1Fields` above.  Every `t.get` raises on a non-dict entry
(`pyGet`). -/
def solarEdgeTelemetryRecord (o : Opts) (ih : ℚ) (t : Json) : Except String (Option Record) :=
  (pyGet t "date").bind fun dateV =>
  match toIso8601 dateV o.timezone with
  | none => .ok none
  | some ts =>
      (pyGet t "totalActivePower").bind fun papV =>
      (pyGet t "inverterMode").bind fun modeV =>
      (pyGet t "operationMode").bind fun opV =>
      (pyGet t "L1Data").bind fun l1V =>
      let powerW := toFloat papV
      let kwh := max (qmul (qdiv (powerW.getD 0) 1000) ih) 0
      let mode := pyUpper (pyStr (pyOr modeV (.str "")))
      let rec0 := baseRecord ts kwh ((SOLAREDGE_MODE_MAPPING.lookup mode).getD "unknown") opV o.asset_id
      let rec1 := match powerW with
        | some p => { rec0 with kW := some (qdiv p 1000) }
        | none => rec0
      -- l1 = t.get("L1Data", {}) if isinstance(t.get("L1Data"), dict) else {}
      let l1 := match l1V with
        | .obj kvs => Json.obj kvs
        | _ => .obj []
      .ok (some (solarEdgeL1Fields l1 rec1))

def solarEdgeTelemetries (o : Opts) (ih : ℚ) : List Json → Except String (List Record)
  | [] => .ok []
  | t :: rest =>
      (solarEdgeTelemetryRecord o ih t).bind fun r? =>
      (solarEdgeTelemetries o ih rest).map fun tail => r?.toList ++ tail

/-- The `energy.values` branch loop of `SolarEdgeTransformer.transform`. -/
def solarEdgeEnergyValues (o : Opts) : List Json → Except String (List Record)
  | [] => .ok []
  | v :: rest =>
      (pyGet v "date").bind fun dateV =>
      (pyGet v "value").bind fun valV =>
      let ts := toIso8601 dateV o.timezone
      let val := toFloat valV
      (solarEdgeEnergyValues o rest).map fun tail =>
      match ts, val with
      | some t, some x => baseRecord t (max (qdiv x 1000) 0) "normal" .null o.asset_id :: tail
      | _, _ => tail

/-- The `power.values` branch loop of `SolarEdgeTransformer.transform`;
status is `"normal" if (val or 0) > 0 else "standby"`. -/
def solarEdgePowerValues (o : Opts) (ih : ℚ) : List Json → Except String (List Record)
  | [] => .ok []
  | v :: rest =>
      (pyGet v "date").bind fun dateV =>
      (pyGet v "value").bind fun valV =>
      match toIso8601 dateV o.timezone with
      | none => solarEdgePowerValues o ih rest
      | some ts =>
          let val := toFloat valV
          let kwh := max (qmul (qdiv (val.getD 0) 1000) ih) 0
          let rec0 := baseRecord ts kwh (if 0 < val.getD 0 then "normal" else "standby") .null o.asset_id
          let rec1 := match val with
            | some x => { rec0 with kW := some (qdiv x 1000) }
            | none => rec0
          (solarEdgePowerValues o ih rest).map fun tail => rec1 :: tail

/-- `SolarEdgeTransformer.transform`: dispatch over the three payload
shapes.  `payload.get("data", {}).get("telemetries")` raises when the
`data` value is present but not a dict (likewise `energy` / `power`). -/
def solarEdgeTransform (payload : Json) (o : Opts) : Except String (List Record) :=
  match payload with
  | .obj kvs =>
      let p := Json.obj kvs
      (pyGetD p "data" (.obj [])).bind fun dataV =>
      (pyGet dataV "telemetries").bind fun telV =>
      match telV with
      | .arr ts => solarEdgeTelemetries o (intervalHours o 15) ts
      | _ =>
          (pyGetD p "energy" (.obj [])).bind fun energyV =>
          (pyGet energyV "values").bind fun evV =>
          match evV with
          | .arr vs => solarEdgeEnergyValues o vs
          | _ =>
              (pyGetD p "power" (.obj [])).bind fun powerV =>
              (pyGet powerV "values").bind fun pvV =>
              match pvV with
              | .arr vs => solarEdgePowerValues o (intervalHours o 15) vs
              | _ => .ok []
  | _ => .ok []

/-! ### Status classification of the remaining vendors -/

/-- `FimerTransformer.STATUS_MAPPING`. -/
def FIMER_STATUS_MAPPING : List (String × String) :=
  [("OK", "normal"), ("ONLINE", "normal"), ("RUNNING", "normal"),
   ("WARNING", "warning"), ("DEGRADED", "warning"), ("FAULT", "fault"),
   ("ERROR", "fault"), ("OFFLINE", "offline"), ("DISCONNECTED", "offline"),
   ("STANDBY", "standby"), ("SLEEP", "standby")]

/-- Status classification of the FIMER snapshot branch:
`STATUS_MAPPING.get(status, "unknown")` (the series/points branches use
the literal `"normal"`). -/
def fimerSnapshotErrorType (status : String) : String :=
  (FIMER_STATUS_MAPPING.lookup status).getD "unknown"

/-- `_normalize_energy_to_kwh`: coerce the value; a falsy unit means
already-kWh; otherwise scale by the stripped upper-cased unit string
(`WH` ↦ ÷1000, `MWH` ↦ ×1000, anything else ↦ identity). -/
def normalizeEnergyToKwh (value : Json) (unit : Json) : Option ℚ :=
  match toFloat value with
  | none => none
  | some energy =>
      if ¬ unit.truthy then some energy
      else
        let u := pyUpper (pyStrip (pyStr unit))
        if u = "WH" then some (qdiv energy 1000)
        else if u = "MWH" then some (qmul energy 1000)
        else some energy

/-- The `series` branch loop of `FimerTransformer.transform`: daily
energies, `error_code=None`, `error_type="normal"`; each `entry.get`
raises on a non-dict entry. -/
def fimerSeries (o : Opts) : List Json → Except String (List Record)
  | [] => .ok []
  | e :: rest =>
      (pyGet e "date").bind fun dateV =>
      match toIso8601 dateV o.timezone with
      | none => fimerSeries o rest
      | some ts =>
          (pyGet e "energy").bind fun energyV =>
          (pyGet e "unit").bind fun unitV =>
          let energy := normalizeEnergyToKwh energyV unitV
          (fimerSeries o rest).map fun tail =>
            baseRecord ts (energy.getD 0) "normal" .null o.asset_id :: tail

/-- The `points` branch loop of `FimerTransformer.transform`: power
samples converted by the interval method, `error_code=None`. -/
def fimerPoints (o : Opts) (ih : ℚ) : List Json → Except String (List Record)
  | [] => .ok []
  | e :: rest =>
      (pyGet e "timestamp").bind fun tsV =>
      match toIso8601 tsV o.timezone with
      | none => fimerPoints o ih rest
      | some ts =>
          (pyGet e "value").bind fun valV =>
          let value := toFloat valV
          let kwh := max (qmul (qdiv (value.getD 0) 1000) ih) 0
          (fimerPoints o ih rest).map fun tail =>
            baseRecord ts kwh "normal" .null o.asset_id :: tail

/-- The snapshot branch of `FimerTransformer.transform`:
`status = str(payload.get("status", "unknown")).upper()` and
`error_code = payload.get("message") or status` — the fallback `status`
string is always passed, so this branch always resolves a (possibly
placeholder) error code. -/
def fimerSnapshot (kvs : List (String × Json)) (o : Opts) : List Record :=
  let p := Json.obj kvs
  match toIso8601 (pyOr (jget p "lastReportedTimestamp") (jget p "timestamp")) o.timezone with
  | none => []
  | some ts =>
      let status := pyUpper (pyStr ((kvs.lookup "status").getD (.str "unknown")))
      [baseRecord ts 0 (fimerSnapshotErrorType status)
        (pyOr (jget p "message") (.str status)) o.asset_id]

/-- `FimerTransformer.transform`: dispatch over the three payload shapes
(`series` list, `points` list, snapshot dict); a non-dict payload falls
through every guard and yields no records. -/
def fimerTransform (payload : Json) (o : Opts) : Except String (List Record) :=
  match payload with
  | .obj kvs =>
      let p := Json.obj kvs
      match jget p "series" with
      | .arr xs => fimerSeries o xs
      | _ =>
          match jget p "points" with
          | .arr xs => fimerPoints o (intervalHours o 15) xs
          | _ => .ok (fimerSnapshot kvs o)
  | _ => .ok []

/-- `FroniusTransformer.STATUS_CODE_MAPPING`. -/
def FRONIUS_STATUS_CODE_MAPPING : List (Int × String) :=
  [(0, "normal"), (1, "normal"), (2, "normal"), (3, "normal"), (4, "normal"),
   (5, "normal"), (6, "normal"), (7, "standby"), (8, "standby"), (9, "fault"),
   (10, "offline"), (11, "warning"), (12, "warning")]

/-- Status of the Fronius power-flow (`Site`) branch:
`"normal" if status_code in (None, 0) else "warning"`. -/
def froniusSiteErrorType (statusCode : Option Int) : String :=
  if statusCode = none ∨ statusCode = some 0 then "normal" else "warning"

/-- Status of the Fronius inverter (`PAC`) branch:
`STATUS_CODE_MAPPING.get(status_code or -1, "unknown")` — `None` *and* the
falsy code 0 both become the absent key −1. -/
def froniusDeviceErrorType (statusCode : Option Int) : String :=
  let key : Int := match statusCode with
    | some c => if c = 0 then -1 else c
    | none => -1
  (FRONIUS_STATUS_CODE_MAPPING.lookup key).getD "unknown"

/-- `SMATransformer.SEVERITY_MAPPING`. -/
def SMA_SEVERITY_MAPPING : List (String × String) :=
  [("INFO", "normal"), ("WARNING", "warning"), ("MINOR", "warning"),
   ("MAJOR", "critical"), ("CRITICAL", "fault"), ("FAULT", "fault")]

/-- `SMATransformer.STATUS_FALLBACK`. -/
def SMA_STATUS_FALLBACK : List (String × String) :=
  [("ONLINE", "normal"), ("RUNNING", "normal"), ("STANDBY", "standby"),
   ("OFFLINE", "offline"), ("ERROR", "fault"), ("UNKNOWN", "unknown")]

/-- SMA status classification:
`SEVERITY_MAPPING.get(sev, STATUS_FALLBACK.get(status, "unknown"))`. -/
def smaErrorType (sev status : String) : String :=
  (SMA_SEVERITY_MAPPING.lookup sev).getD ((SMA_STATUS_FALLBACK.lookup status).getD "unknown")

/-- `SolisTransformer.STATUS_MAPPING`. -/
def SOLIS_STATUS_MAPPING : List (String × String) :=
  [("NORMAL", "normal"), ("RUNNING", "normal"), ("WARNING", "warning"),
   ("ALARM", "warning"), ("FAULT", "fault"), ("ERROR", "fault"),
   ("OFFLINE", "offline"), ("STANDBY", "standby"), ("SLEEP", "standby"),
   ("UNKNOWN", "unknown")]

/-- SolisCloud status classification: `STATUS_MAPPING.get(status, "unknown")`. -/
def solisErrorType (status : String) : String :=
  (SOLIS_STATUS_MAPPING.lookup status).getD "unknown"

/-! ### Transformer registry (`_get_transformer`) -/

/-- The distinct transformer implementations the registry dispatches to. -/
inductive Vendor where
  | huawei | enphase | solarman | switch | solaxcloud
  | fimer | solaredge | fronius | sma | solis
deriving DecidableEq

/-- The `transformers` dict of `_get_transformer`, in insertion order;
synonym keys point at the same implementation. -/
def registry : List (String × Vendor) :=
  [("huawei", .huawei), ("enphase", .enphase), ("solarman", .solarman),
   ("switch", .switch), ("solaxcloud", .solaxcloud), ("solax", .solaxcloud),
   ("fimer", .fimer), ("auroravision", .fimer), ("solaredge", .solaredge),
   ("fronius", .fronius), ("sma", .sma), ("solis", .solis),
   ("soliscloud", .solis)]

/-- `list(transformers.keys())`. -/
def supportedSources : List String := registry.map Prod.fst

/-- The `ValueError` message:
`f"Unknown source TEXT. Supported sources: LIST"` — the Python repr quotes
around the source and around each key are elided, the enumerated content
is identical. -/
def unknownSourceMessage (source : String) : String :=
  "Unknown source " ++ source ++ ". Supported sources: " ++
    String.intercalate ", " supportedSources

/-- `_get_transformer`: lower-case the identifier, dispatch or raise the
enumerating `ValueError` (no records are produced on the error path). -/
def getTransformer (source : String) : Except String Vendor :=
  match registry.lookup (pyLower source) with
  | some v => .ok v
  | none => .error (unknownSourceMessage source)

/-! ## Theorems

First the bridge lemmas identifying the reducible rational wrappers with
the library operations, then generic helpers, then one theorem (plus
witness / counterexample material) per claim. -/

theorem qadd_eq (a b : ℚ) : qadd a b = a + b := by
  have had : ((a.den : ℚ)) ≠ 0 := by exact_mod_cast a.den_nz
  have hbd : ((b.den : ℚ)) ≠ 0 := by exact_mod_cast b.den_nz
  have ha : (a.num : ℚ) = a * a.den := (div_eq_iff had).mp (Rat.num_div_den a)
  have hb : (b.num : ℚ) = b * b.den := (div_eq_iff hbd).mp (Rat.num_div_den b)
  rw [qadd, Rat.divInt_eq_div]
  push_cast
  field_simp
  rw [ha, hb]
  ring

theorem qsub_eq (a b : ℚ) : qsub a b = a - b := by
  have had : ((a.den : ℚ)) ≠ 0 := by exact_mod_cast a.den_nz
  have hbd : ((b.den : ℚ)) ≠ 0 := by exact_mod_cast b.den_nz
  have ha : (a.num : ℚ) = a * a.den := (div_eq_iff had).mp (Rat.num_div_den a)
  have hb : (b.num : ℚ) = b * b.den := (div_eq_iff hbd).mp (Rat.num_div_den b)
  rw [qsub, Rat.divInt_eq_div]
  push_cast
  field_simp
  rw [ha, hb]
  ring

theorem qmul_eq (a b : ℚ) : qmul a b = a * b := by
  have had : ((a.den : ℚ)) ≠ 0 := by exact_mod_cast a.den_nz
  have hbd : ((b.den : ℚ)) ≠ 0 := by exact_mod_cast b.den_nz
  have ha : (a.num : ℚ) = a * a.den := (div_eq_iff had).mp (Rat.num_div_den a)
  have hb : (b.num : ℚ) = b * b.den := (div_eq_iff hbd).mp (Rat.num_div_den b)
  rw [qmul, Rat.divInt_eq_div]
  push_cast
  field_simp
  rw [ha, hb]
  ring

theorem qdiv_eq (a b : ℚ) : qdiv a b = a / b := by
  rcases eq_or_ne b 0 with hb | hb
  · subst hb
    simp [qdiv]
  · have had : ((a.den : ℚ)) ≠ 0 := by exact_mod_cast a.den_nz
    have hbd : ((b.den : ℚ)) ≠ 0 := by exact_mod_cast b.den_nz
    have hbn : (b.num : ℚ) ≠ 0 := by exact_mod_cast Rat.num_ne_zero.mpr hb
    have ha : (a.num : ℚ) = a * a.den := (div_eq_iff had).mp (Rat.num_div_den a)
    have hb2 : (b.num : ℚ) = b * b.den := (div_eq_iff hbd).mp (Rat.num_div_den b)
    rw [qdiv, Rat.divInt_eq_div]
    push_cast
    rw [div_eq_div_iff (mul_ne_zero had hbn) hb, ha, hb2]
    ring

/-- A default-carrying table lookup lands in `S` whenever the default and
every table value do. -/
theorem lookup_getD_mem {α : Type} [BEq α] (m : List (α × String)) (k : α) (d : String)
    (S : List String) (hd : d ∈ S) (hm : ∀ p ∈ m, p.2 ∈ S) :
    ((m.lookup k).getD d) ∈ S := by
  induction m with
  | nil => simpa [List.lookup]
  | cons p t ih =>
      rcases p with ⟨a, b⟩
      by_cases h : k == a
      · simpa [List.lookup, h] using hm (a, b) (by simp)
      · rw [List.lookup]
        simp only [h]
        exact ih (fun q hq => hm q (by simp [hq]))

/-- `List.lookup` fails exactly when the key is absent from the map. -/
theorem lookup_eq_none_iff {β : Type} (m : List (String × β)) (k : String) :
    m.lookup k = none ↔ k ∉ m.map Prod.fst := by
  induction m with
  | nil => simp [List.lookup]
  | cons p t ih =>
      rcases p with ⟨a, b⟩
      by_cases h : k = a
      · subst h
        simp [List.lookup]
      · rw [List.lookup]
        have hba : (k == a) = false := beq_false_of_ne h
        simp [hba, ih, h]

theorem except_bind_ok {ε α β : Type} {x : Except ε α} {f : α → Except ε β} {b : β}
    (h : x.bind f = .ok b) : ∃ a, x = .ok a ∧ f a = .ok b := by
  cases x with
  | ok a => exact ⟨a, rfl, h⟩
  | error e => simp [Except.bind] at h

theorem except_map_ok {ε α β : Type} {x : Except ε α} {f : α → β} {b : β}
    (h : Except.map f x = .ok b) : ∃ a, x = .ok a ∧ f a = b := by
  cases x with
  | ok a =>
      refine ⟨a, rfl, ?_⟩
      simpa [Except.map] using h
  | error e => simp [Except.map] at h

theorem data_append (a b : String) : (a ++ b).data = a.data ++ b.data := rfl

theorem digitChar_ne_dot (n : Nat) : digitChar n ≠ '.' := by
  have h : n % 10 < 10 := Nat.mod_lt _ (by omega)
  unfold digitChar
  set m := n % 10 with hm
  interval_cases m <;> decide

theorem dot_not_mem_pad2 (n : Nat) : '.' ∉ (pad2 n).data := by
  simp only [pad2, List.mem_cons, List.not_mem_nil, or_false]
  push_neg
  exact ⟨fun h => digitChar_ne_dot _ h.symm, fun h => digitChar_ne_dot _ h.symm⟩

theorem dot_not_mem_pad4 (n : Nat) : '.' ∉ (pad4 n).data := by
  simp only [pad4, List.mem_cons, List.not_mem_nil, or_false]
  push_neg
  refine ⟨fun h => digitChar_ne_dot _ h.symm, fun h => digitChar_ne_dot _ h.symm,
    fun h => digitChar_ne_dot _ h.symm, fun h => digitChar_ne_dot _ h.symm⟩

/-- The formatted civil body `YYYY-MM-DDTHH:MM:SS` carries no `.`:
microseconds are dropped, so no sub-second precision can appear. -/
theorem dot_not_mem_fmtDT6 (dt : DT6) : '.' ∉ (fmtDT6 dt).data := by
  unfold fmtDT6
  simp only [data_append, List.mem_append]
  push_neg
  refine ⟨⟨⟨⟨⟨⟨⟨⟨⟨⟨dot_not_mem_pad4 _, by decide⟩, dot_not_mem_pad2 _⟩, by decide⟩,
    dot_not_mem_pad2 _⟩, by decide⟩, dot_not_mem_pad2 _⟩, by decide⟩,
    dot_not_mem_pad2 _⟩, by decide⟩, dot_not_mem_pad2 _⟩

theorem digit_ne_dot (c : Char) (h : c.isDigit = true) : c ≠ '.' := by
  intro heq
  subst heq
  exact absurd h (by decide)

/-- A well-formed `±HH:MM` override contains no `.` either. -/
theorem isOffsetTz_no_dot (o : String) (h : isOffsetTz o = true) : '.' ∉ o.data := by
  unfold isOffsetTz at h
  rcases ho : o.data with _ | ⟨c0, _ | ⟨c1, _ | ⟨c2, _ | ⟨c3, _ | ⟨c4, _ | ⟨c5, _ | ⟨c6, t⟩⟩⟩⟩⟩⟩⟩ <;>
    rw [ho] at h <;> (first | (exfalso; revert h; simp; done) | skip)
  simp only [decide_eq_true_eq] at h
  obtain ⟨h0, h1, h2, h3, h4, h5⟩ := h
  simp only [List.mem_cons, List.not_mem_nil, or_false]
  push_neg
  refine ⟨?_, fun he => digit_ne_dot _ h1 he.symm, fun he => digit_ne_dot _ h2 he.symm,
    by rw [h3]; decide, fun he => digit_ne_dot _ h4 he.symm, fun he => digit_ne_dot _ h5 he.symm⟩
  rcases h0 with h0 | h0 <;> rw [h0] <;> decide

/-- The appended suffix is `Z` or the well-formed override, never dotted. -/
theorem dot_not_mem_tzSuffix (tz : Option String) : '.' ∉ (tzSuffix tz).data := by
  unfold tzSuffix
  rcases tz with _ | o
  · decide
  · by_cases h : isOffsetTz o
    · simpa [h] using isOffsetTz_no_dot o h
    · simp only [h, Bool.false_eq_true, if_false]
      decide

theorem lookup_mem_values {α β : Type} [BEq α] (m : List (α × β)) (k : α) (v : β)
    (h : m.lookup k = some v) : v ∈ m.map Prod.snd := by
  induction m with
  | nil => simp [List.lookup] at h
  | cons p t ih =>
      rcases p with ⟨a, b⟩
      rw [List.lookup] at h
      by_cases hk : k == a
      · simp only [hk] at h
        cases h
        simp
      · simp only [Bool.not_eq_true] at hk
        simp only [hk] at h
        simpa using Or.inr (ih h)

theorem huaweiMapErrorCode_mem (code runState : Option Int) :
    huaweiMapErrorCode code runState ∈ canonicalStates := by
  unfold huaweiMapErrorCode
  split_ifs
  · decide
  · cases code with
    | none => dsimp only; decide
    | some c =>
        dsimp only
        simp only [HUAWEI_ERROR_CODES, huaweiLookupCode]
        split_ifs <;> decide

theorem enphaseDeriveStatus_mem (dr exp : Option Int) :
    enphaseDeriveStatus dr exp ∈ canonicalStates := by
  unfold enphaseDeriveStatus
  rcases dr with _ | d
  · dsimp only
    decide
  · rcases exp with _ | e
    · dsimp only
      split_ifs <;> decide
    · dsimp only
      split_ifs <;> decide

theorem solarmanFallbackState_mem (pw : Option ℚ) :
    solarmanFallbackState pw ∈ canonicalStates := by
  unfold solarmanFallbackState
  rcases pw with _ | p
  · dsimp only
    decide
  · dsimp only
    split_ifs <;> decide

theorem solarmanStateTable_values :
    ∀ x ∈ SOLARMAN_STATE_MAPPING.map Prod.snd, x ∈ canonicalStates := by decide

theorem solarmanMapState_mem (ds : Option String) (pw : Option ℚ) :
    solarmanMapState ds pw ∈ canonicalStates := by
  unfold solarmanMapState
  rcases ds with _ | s
  · exact solarmanFallbackState_mem pw
  · dsimp only
    cases h1 : SOLARMAN_STATE_MAPPING.lookup (pyStrip s) with
    | some v => exact solarmanStateTable_values v (lookup_mem_values _ _ _ h1)
    | none =>
        cases h2 : SOLARMAN_STATE_MAPPING.lookup (pyTitle (pyStrip s)) with
        | some v => exact solarmanStateTable_values v (lookup_mem_values _ _ _ h2)
        | none => exact solarmanFallbackState_mem pw

theorem switchMapError_mem (p : Option ℚ) : switchMapError p ∈ canonicalStates := by
  unfold switchMapError
  rcases p with _ | q
  · dsimp only
    decide
  · dsimp only
    split_ifs <;> decide

theorem solaxStatus_mem (s : String) :
    (SOLAX_STATUS_MAPPING.lookup s).getD "unknown" ∈ canonicalStates :=
  lookup_getD_mem _ _ _ _ (by decide) (by decide)

theorem solarEdgeMode_mem (m : String) :
    (SOLAREDGE_MODE_MAPPING.lookup m).getD "unknown" ∈ canonicalStates :=
  lookup_getD_mem _ _ _ _ (by decide) (by decide)

theorem fimerSnapshotErrorType_mem (s : String) :
    fimerSnapshotErrorType s ∈ canonicalStates :=
  lookup_getD_mem _ _ _ _ (by decide) (by decide)

theorem froniusSiteErrorType_mem (sc : Option Int) :
    froniusSiteErrorType sc ∈ canonicalStates := by
  unfold froniusSiteErrorType
  split_ifs <;> decide

theorem froniusDeviceErrorType_mem (sc : Option Int) :
    froniusDeviceErrorType sc ∈ canonicalStates :=
  lookup_getD_mem _ _ _ _ (by decide) (by decide)

theorem smaErrorType_mem (sev status : String) :
    smaErrorType sev status ∈ canonicalStates :=
  lookup_getD_mem _ _ _ _ (lookup_getD_mem _ _ _ _ (by decide) (by decide)) (by decide)

theorem solisErrorType_mem (s : String) : solisErrorType s ∈ canonicalStates :=
  lookup_getD_mem _ _ _ _ (by decide) (by decide)

/-- Facts about every record the Huawei row loop emits. -/
theorem huaweiRowRecord_inv (o : Opts) (ih : ℚ) (row : Row) (r : Record)
    (h : huaweiRowRecord o ih row = some r) :
    r.error_type ∈ canonicalStates ∧ r.error_code.isSome = true ∧
      r.asset_id = assetOpt o ∧ 0 ≤ r.kWh := by
  unfold huaweiRowRecord at h
  cases hts : toIso8601Field (firstValue row ["timestamp", "Time", "Timestamp", "time"]) o.timezone with
  | none => rw [hts] at h; exact absurd h (by simp)
  | some ts =>
      rw [hts] at h
      cases h
      refine ⟨huaweiMapErrorCode_mem _ _, ?_, rfl, le_max_right _ _⟩
      cases toIntStr (firstValue row ["inverter_state", "Inverter State", "State", "status"]) <;> rfl

theorem huaweiTransform_inv (rows : List Row) (o : Opts) (r : Record)
    (h : r ∈ huaweiTransform rows o) :
    r.error_type ∈ canonicalStates ∧ r.error_code.isSome = true ∧
      r.asset_id = assetOpt o ∧ 0 ≤ r.kWh := by
  obtain ⟨row, _, hr⟩ := List.mem_filterMap.mp h
  exact huaweiRowRecord_inv _ _ _ _ hr

/-- Facts about every record the Enphase item loop emits. -/
theorem enphaseItemRecord_inv (o : Opts) (item : Json) (r : Record)
    (h : enphaseItemRecord o item = some r) :
    r.error_type ∈ canonicalStates ∧ r.error_code = none ∧
      r.asset_id = assetOpt o ∧ 0 ≤ r.kWh := by
  unfold enphaseItemRecord at h
  cases item with
  | obj kvs =>
      dsimp only at h
      cases hts : (match toFloat (jget (.obj kvs) "end_at") with
          | none => (none : Option String)
          | some q => toIso8601Num q) with
      | none =>
          rw [hts] at h
          exact absurd h (by simp)
      | some t =>
          rw [hts] at h
          cases hw : toFloat (jget (.obj kvs) "wh_del") with
          | none => rw [hw] at h; exact absurd h (by simp)
          | some w =>
              rw [hw] at h
              cases h
              exact ⟨enphaseDeriveStatus_mem _ _, rfl, rfl, le_max_right _ _⟩
  | null => exact absurd h (by simp)
  | bool b => exact absurd h (by simp)
  | num q => exact absurd h (by simp)
  | str s => exact absurd h (by simp)
  | arr xs => exact absurd h (by simp)

theorem enphaseTransform_inv (payload : Json) (o : Opts) (r : Record)
    (h : r ∈ enphaseTransform payload o) :
    r.error_type ∈ canonicalStates ∧ r.error_code = none ∧
      r.asset_id = assetOpt o ∧ 0 ≤ r.kWh := by
  obtain ⟨item, _, hr⟩ := List.mem_filterMap.mp h
  exact enphaseItemRecord_inv _ _ _ hr

/-- Facts about every record the Switch row loop emits, for an arbitrary
model of `math.sqrt`: in particular the emitted `PF`, when present, is the
clamped `max(0, min(1, pf))` and hence lies in `[0, 1]`. -/
theorem switchRowRecord_inv (sqrtFn : ℚ → ℚ) (o : Opts) (ih : ℚ) (row : Row) (r : Record)
    (h : switchRowRecord sqrtFn o ih row = some r) :
    r.error_type ∈ canonicalStates ∧ r.error_code.isSome = true ∧
      r.asset_id = assetOpt o ∧ 0 ≤ r.kWh ∧
      (∀ p, r.PF = some p → 0 ≤ p ∧ p ≤ 1) := by
  unfold switchRowRecord at h
  cases hts : toIso8601Field (firstValue row ["timestampISO", "timestamp", "Time", "Date/Time"]) o.timezone with
  | none => rw [hts] at h; exact absurd h (by simp)
  | some ts =>
      rw [hts] at h
      cases h
      refine ⟨switchMapError_mem _, rfl, rfl, le_max_right _ _, ?_⟩
      intro p hp
      rw [Option.map_eq_some'] at hp
      obtain ⟨q, hq1, hq2⟩ := hp
      subst hq2
      constructor
      · exact le_max_left _ _
      · exact max_le (by norm_num) (min_le_left _ _)

theorem switchTransform_inv (sqrtFn : ℚ → ℚ) (rows : List Row) (o : Opts) (r : Record)
    (h : r ∈ switchTransform sqrtFn rows o) :
    r.error_type ∈ canonicalStates ∧ r.error_code.isSome = true ∧
      r.asset_id = assetOpt o ∧ 0 ≤ r.kWh ∧
      (∀ p, r.PF = some p → 0 ≤ p ∧ p ≤ 1) := by
  obtain ⟨row, _, hr⟩ := List.mem_filterMap.mp h
  exact switchRowRecord_inv _ _ _ _ _ hr

/-- A skipped Solarman row (unparsable timestamp or missing cumulative
field) leaves the `prev_generation` accumulator unchanged. -/
theorem solarmanStep_skip (o : Opts) (ih : ℚ) (prev : Option ℚ) (row : Row) (p' : Option ℚ)
    (h : solarmanStep o ih prev row = (p', none)) : p' = prev := by
  unfold solarmanStep at h
  cases hts : toIso8601Field (firstValue row ["update_time", "Update Time", "Time", "Timestamp"]) o.timezone with
  | none =>
      rw [hts] at h
      exact (Prod.mk.injEq _ _ _ _ |>.mp h).1.symm
  | some ts =>
      rw [hts] at h
      dsimp only at h
      cases hg : solarmanGeneration row with
      | none =>
          rw [hg] at h
          exact (Prod.mk.injEq _ _ _ _ |>.mp h).1.symm
      | some g =>
          rw [hg] at h
          dsimp only at h
          exact absurd (Prod.mk.injEq _ _ _ _ |>.mp h).2 (by
            cases toFloatStr (firstValue row ["power", "Power(W)", "Active Power", "Output Power"]) <;> simp)

/-- Every record the Solarman row loop emits: the accumulator becomes the
row's cumulative reading, `kWh` is `0` on the first reading and the
clamped delta afterwards (the dead re-estimation branch never fires), and
the canonical fields behave as for the other vendors. -/
theorem solarmanStep_emit (o : Opts) (ih : ℚ) (prev : Option ℚ) (row : Row)
    (p' : Option ℚ) (r : Record)
    (h : solarmanStep o ih prev row = (p', some r)) :
    (∃ g, solarmanGeneration row = some g ∧ p' = some g ∧
      (prev = none → r.kWh = 0) ∧
      (∀ pv, prev = some pv → r.kWh = max (qsub g pv) 0)) ∧
    r.error_type ∈ canonicalStates ∧ r.error_code.isSome = true ∧
    r.asset_id = assetOpt o ∧ 0 ≤ r.kWh := by
  unfold solarmanStep at h
  cases hts : toIso8601Field (firstValue row ["update_time", "Update Time", "Time", "Timestamp"]) o.timezone with
  | none =>
      rw [hts] at h
      exact absurd (Prod.mk.injEq _ _ _ _ |>.mp h).2 (by simp)
  | some ts =>
      rw [hts] at h
      dsimp only at h
      cases hg : solarmanGeneration row with
      | none =>
          rw [hg] at h
          exact absurd (Prod.mk.injEq _ _ _ _ |>.mp h).2 (by simp)
      | some g =>
          rw [hg] at h
          simp only [Option.isNone_some, Bool.false_eq_true, false_and, if_false] at h
          obtain ⟨h1, h2⟩ := Prod.mk.injEq _ _ _ _ |>.mp h
          cases hpw : toFloatStr (firstValue row ["power", "Power(W)", "Active Power", "Output Power"]) with
          | none =>
              rw [hpw] at h2
              dsimp only at h2
              have hr := Option.some.inj h2
              subst hr
              refine ⟨⟨g, rfl, h1.symm, ?_, ?_⟩, solarmanMapState_mem _ _, rfl, rfl, ?_⟩
              · intro hp
                subst hp
                rfl
              · intro pv hp
                subst hp
                rfl
              · cases prev <;> dsimp only
                · exact le_refl 0
                · exact le_max_right _ _
          | some pw =>
              rw [hpw] at h2
              dsimp only at h2
              have hr := Option.some.inj h2
              subst hr
              refine ⟨⟨g, rfl, h1.symm, ?_, ?_⟩, solarmanMapState_mem _ _, rfl, rfl, ?_⟩
              · intro hp
                subst hp
                rfl
              · intro pv hp
                subst hp
                rfl
              · cases prev <;> dsimp only
                · exact le_refl 0
                · exact le_max_right _ _

theorem solarmanGo_inv (o : Opts) (ih : ℚ) :
    ∀ (rows : List Row) (prev : Option ℚ) (r : Record), r ∈ solarmanGo o ih prev rows →
      r.error_type ∈ canonicalStates ∧ r.error_code.isSome = true ∧
        r.asset_id = assetOpt o ∧ 0 ≤ r.kWh := by
  intro rows
  induction rows with
  | nil =>
      intro prev r h
      simp [solarmanGo] at h
  | cons row t ih2 =>
      intro prev r h
      rw [solarmanGo] at h
      cases hstep : solarmanStep o ih prev row with
      | mk p' rec? =>
          rw [hstep] at h
          cases rec? with
          | some rc =>
              rcases List.mem_cons.mp h with h | h
              · subst h
                obtain ⟨_, hm, hs, ha, hn⟩ := solarmanStep_emit o ih prev row p' r hstep
                exact ⟨hm, hs, ha, hn⟩
              · exact ih2 p' r h
          | none => exact ih2 p' r h

theorem solarmanTransform_inv (rows : List Row) (o : Opts) (r : Record)
    (h : r ∈ solarmanTransform rows o) :
    r.error_type ∈ canonicalStates ∧ r.error_code.isSome = true ∧
      r.asset_id = assetOpt o ∧ 0 ≤ r.kWh :=
  solarmanGo_inv o _ rows none r h

/-- The first record of a Solarman call always carries `kWh = 0`: skipped
rows do not touch the accumulator, and the first emitted row sees
`prev_generation = None`. -/
theorem solarmanGo_first (o : Opts) (ih : ℚ) :
    ∀ (rows : List Row) (r : Record) (rest : List Record),
      solarmanGo o ih none rows = r :: rest → r.kWh = 0 := by
  intro rows
  induction rows with
  | nil =>
      intro r rest h
      simp [solarmanGo] at h
  | cons row t ih2 =>
      intro r rest h
      rw [solarmanGo] at h
      cases hstep : solarmanStep o ih none row with
      | mk p' rec? =>
          rw [hstep] at h
          cases rec? with
          | some rc =>
              dsimp only at h
              obtain ⟨h1, _⟩ := List.cons.injEq _ _ _ _ |>.mp h
              subst h1
              obtain ⟨⟨g, _, _, hk0, _⟩, _⟩ := solarmanStep_emit o ih none row p' rc hstep
              exact hk0 rfl
          | none =>
              have hp := solarmanStep_skip o ih none row p' hstep
              subst hp
              exact ih2 r rest h

/-- Facts about every record of a *successful* SolaxCloud run. -/
theorem solaxGo_inv (payload : Json) (o : Opts) (ih : ℚ) :
    ∀ (l : List Json) (rs : List Record) (r : Record),
      solaxGo payload o ih l = .ok rs → r ∈ rs →
      r.error_type ∈ canonicalStates ∧ r.error_code.isSome = true ∧ r.asset_id = assetOpt o := by
  intro l
  induction l with
  | nil =>
      intro rs r h hr
      rw [solaxGo] at h
      cases h
      simp at hr
  | cons e rest ih2 =>
      intro rs r h hr
      rw [solaxGo] at h
      cases hts : solaxEntryTs o e with
      | none =>
          rw [hts] at h
          exact ih2 rs r h hr
      | some ts =>
          rw [hts] at h
          dsimp only at h
          obtain ⟨code, _, h2⟩ := except_bind_ok h
          obtain ⟨tail, htail, h3⟩ := except_map_ok h2
          subst h3
          rcases List.mem_cons.mp hr with hr | hr
          · subst hr
            exact ⟨solaxStatus_mem _, rfl, rfl⟩
          · exact ih2 tail r htail hr

/-- With a top-level array payload, the loop body's `payload.get("code")`
raises `AttributeError` on the first entry whose timestamp resolves. -/
theorem solaxGo_arr_raises (xs : List Json) (o : Opts) (ih : ℚ) :
    ∀ (l : List Json), (∃ e ∈ l, (solaxEntryTs o e).isSome = true) →
      solaxGo (.arr xs) o ih l = .error "AttributeError" := by
  intro l
  induction l with
  | nil =>
      rintro ⟨e, he, _⟩
      simp at he
  | cons e rest ih2 =>
      rintro ⟨f, hf, hsome⟩
      rw [solaxGo]
      cases hts : solaxEntryTs o e with
      | some ts => rfl
      | none =>
          rcases List.mem_cons.mp hf with hfe | hfr
          · subst hfe
            rw [hts] at hsome
            simp at hsome
          · exact ih2 ⟨f, hfr, hsome⟩

/-- With a top-level array payload, entries whose timestamp does not
resolve are all skipped and the call returns an empty list normally. -/
theorem solaxGo_arr_skips (xs : List Json) (o : Opts) (ih : ℚ) :
    ∀ (l : List Json), (∀ e ∈ l, solaxEntryTs o e = none) →
      solaxGo (.arr xs) o ih l = .ok [] := by
  intro l
  induction l with
  | nil =>
      intro _
      rw [solaxGo]
  | cons e rest ih2 =>
      intro hall
      rw [solaxGo, hall e (by simp)]
      exact ih2 (fun f hf => hall f (by simp [hf]))

/-- C3 counterexample: for a valid epoch input (`0`) and a well-formed
override `+02:00`, the numeric branch of `_to_iso8601` still returns a
`Z`-suffixed string — the override is not applied, so as stated the claim
fails at this input. -/
theorem C3_epoch_override_counterexample :
    toIso8601 (.num 0) (some "+02:00") = some "1970-01-01T00:00:00Z" ∧
    isOffsetTz "+02:00" = true ∧
    ("+02:00".data.isSuffixOf "1970-01-01T00:00:00Z".data) = false := by decide

/-- C3 (amended): a valid epoch input always yields the formatted UTC
body with suffix `Z`, *regardless of any override*; a string input that
parses without an explicit offset — via the strict ISO branch or the
legacy `strptime` chain — yields the formatted body plus exactly the
override when it is a well-formed `±HH:MM` and `Z` otherwise (a malformed
override is silently ignored); no output of either branch contains a `.`
(no sub-second precision). -/
theorem C3_timestamp_suffix :
    (∀ (q : ℚ) (tz : Option String) (out : String),
        toIso8601 (.num q) tz = some out →
        out = fmtDT6 (epochToDT ⌊q⌋) ++ "Z" ∧ '.' ∉ out.data) ∧
    (∀ (text : String) (tz : Option String) (dt : PyDateTime),
        pyStrip text ≠ "" →
        pyFromIso (pyReplaceZ (pyStrip text)) = some dt → dt.tz = none →
        toIso8601Str text tz = some (fmtDT6 dt.core ++ tzSuffix tz) ∧
          '.' ∉ (fmtDT6 dt.core ++ tzSuffix tz).data) ∧
    (∀ (text : String) (tz : Option String) (c : DT6),
        pyStrip text ≠ "" →
        pyFromIso (pyReplaceZ (pyStrip text)) = none →
        parseLegacy (pyStrip text) = some c →
        toIso8601Str text tz = some (fmtDT6 c ++ tzSuffix tz) ∧
          '.' ∉ (fmtDT6 c ++ tzSuffix tz).data) ∧
    (∀ o : String, isOffsetTz o = true → tzSuffix (some o) = o) ∧
    (∀ o : String, isOffsetTz o = false → tzSuffix (some o) = "Z") ∧
    tzSuffix none = "Z" := by
  have hnodot : ∀ (c : DT6) (tz : Option String), '.' ∉ (fmtDT6 c ++ tzSuffix tz).data := by
    intro c tz
    rw [data_append]
    simp only [List.mem_append]
    push_neg
    exact ⟨dot_not_mem_fmtDT6 c, dot_not_mem_tzSuffix tz⟩
  refine ⟨?_, ?_, ?_, ?_, ?_, rfl⟩
  · intro q tz out h
    have h2 : toIso8601Num q = some out := h
    unfold toIso8601Num at h2
    dsimp only at h2
    split at h2
    · exact absurd h2 (by simp)
    · cases h2
      constructor
      · rfl
      · rw [data_append]
        simp only [List.mem_append]
        push_neg
        exact ⟨dot_not_mem_fmtDT6 _, by decide⟩
  · intro text tz dt h1 h2 h3
    unfold toIso8601Str
    rw [if_neg h1]
    dsimp only
    rw [h2]
    dsimp only
    rw [h3]
    exact ⟨rfl, hnodot dt.core tz⟩
  · intro text tz c h1 h2 h3
    unfold toIso8601Str
    rw [if_neg h1]
    dsimp only
    rw [h2]
    dsimp only
    rw [h3]
    exact ⟨rfl, hnodot c tz⟩
  · intro o h
    unfold tzSuffix
    dsimp only
    rw [if_pos h]
  · intro o h
    unfold tzSuffix
    dsimp only
    rw [if_neg (by simp [h])]

/-- C3 witness: the amended theorem applied at concrete inputs — a valid
epoch, a dash legacy string with a well-formed override, and a slash
legacy string with a malformed override. -/
theorem C3_timestamp_suffix_witness :
    ("1970-01-01T00:00:42Z" = fmtDT6 (epochToDT ⌊(42 : ℚ)⌋) ++ "Z" ∧
      '.' ∉ "1970-01-01T00:00:42Z".data) ∧
    (toIso8601Str "2026-02-09 12:33:44" (some "+05:30") =
        some (fmtDT6 ⟨2026, 2, 9, 12, 33, 44⟩ ++ tzSuffix (some "+05:30")) ∧
      '.' ∉ (fmtDT6 ⟨2026, 2, 9, 12, 33, 44⟩ ++ tzSuffix (some "+05:30")).data) ∧
    (toIso8601Str "2026/02/09 00:00:00" (some "+5:30") =
        some (fmtDT6 ⟨2026, 2, 9, 0, 0, 0⟩ ++ tzSuffix (some "+5:30")) ∧
      '.' ∉ (fmtDT6 ⟨2026, 2, 9, 0, 0, 0⟩ ++ tzSuffix (some "+5:30")).data) ∧
    tzSuffix (some "+05:30") = "+05:30" ∧
    tzSuffix (some "+5:30") = "Z" :=
  ⟨C3_timestamp_suffix.1 42 none "1970-01-01T00:00:42Z" (by decide),
   C3_timestamp_suffix.2.1 "2026-02-09 12:33:44" (some "+05:30")
     ⟨⟨2026, 2, 9, 12, 33, 44⟩, none⟩ (by decide) (by decide) rfl,
   C3_timestamp_suffix.2.2.1 "2026/02/09 00:00:00" (some "+5:30")
     ⟨2026, 2, 9, 0, 0, 0⟩ (by decide) (by decide) (by decide),
   C3_timestamp_suffix.2.2.2.1 "+05:30" (by decide),
   C3_timestamp_suffix.2.2.2.2.1 "+5:30" (by decide)⟩

/-- C4: status classification is total.  Every vendor classification
function lands in the 7-value canonical enum for *every* possible input
(codes absent from the tables and absent values included), and the
`error_type` of every record emitted by the embedded transformers is a
member of that enum — never absent or null. -/
theorem C4_error_type_total :
    (∀ code runState, huaweiMapErrorCode code runState ∈ canonicalStates) ∧
    (∀ ds pw, solarmanMapState ds pw ∈ canonicalStates) ∧
    (∀ dr exp, enphaseDeriveStatus dr exp ∈ canonicalStates) ∧
    (∀ p, switchMapError p ∈ canonicalStates) ∧
    (∀ s, (SOLAX_STATUS_MAPPING.lookup s).getD "unknown" ∈ canonicalStates) ∧
    (∀ m, (SOLAREDGE_MODE_MAPPING.lookup m).getD "unknown" ∈ canonicalStates) ∧
    (∀ s, fimerSnapshotErrorType s ∈ canonicalStates) ∧
    (∀ sc, froniusSiteErrorType sc ∈ canonicalStates) ∧
    (∀ sc, froniusDeviceErrorType sc ∈ canonicalStates) ∧
    (∀ sev st, smaErrorType sev st ∈ canonicalStates) ∧
    (∀ s, solisErrorType s ∈ canonicalStates) ∧
    (∀ rows o r, r ∈ huaweiTransform rows o → r.error_type ∈ canonicalStates) ∧
    (∀ payload o r, r ∈ enphaseTransform payload o → r.error_type ∈ canonicalStates) ∧
    (∀ rows o r, r ∈ solarmanTransform rows o → r.error_type ∈ canonicalStates) ∧
    (∀ f rows o r, r ∈ switchTransform f rows o → r.error_type ∈ canonicalStates) ∧
    (∀ payload o rs r, solaxTransform payload o = .ok rs → r ∈ rs →
        r.error_type ∈ canonicalStates) :=
  ⟨huaweiMapErrorCode_mem, solarmanMapState_mem, enphaseDeriveStatus_mem,
   switchMapError_mem, solaxStatus_mem, solarEdgeMode_mem, fimerSnapshotErrorType_mem,
   froniusSiteErrorType_mem, froniusDeviceErrorType_mem, smaErrorType_mem, solisErrorType_mem,
   fun rows o r h => (huaweiTransform_inv rows o r h).1,
   fun payload o r h => (enphaseTransform_inv payload o r h).1,
   fun rows o r h => (solarmanTransform_inv rows o r h).1,
   fun f rows o r h => (switchTransform_inv f rows o r h).1,
   fun payload o rs r h hr => (solaxGo_inv payload o _ _ rs r h hr).1⟩

/-- C4 witness: concrete classifications — a Huawei code absent from its
table, an empty Solarman state — and concrete records of five
transformers, all inside the canonical enum. -/
theorem C4_error_type_total_witness :
    huaweiMapErrorCode (some 99999) none ∈ canonicalStates ∧
    solarmanMapState (some "No Such State") (some (-3)) ∈ canonicalStates ∧
    ({ timestamp := "2026-02-09T12:00:00Z", kWh := 0, error_type := "unknown",
       error_code := some "unknown" } : Record).error_type ∈ canonicalStates ∧
    ({ timestamp := "2025-02-09T12:00:00Z", kWh := Rat.divInt 7 2,
       error_type := "offline" } : Record).error_type ∈ canonicalStates ∧
    ({ timestamp := "2026-02-09T12:00:00Z", kWh := 0, error_type := "unknown",
       error_code := some "inferred" } : Record).error_type ∈ canonicalStates ∧
    ({ timestamp := "2026-02-09T12:00:00Z", kWh := 0, error_type := "unknown",
       error_code := some "unknown" } : Record).error_type ∈ canonicalStates :=
  ⟨C4_error_type_total.1 (some 99999) none,
   C4_error_type_total.2.1 (some "No Such State") (some (-3)),
   C4_error_type_total.2.2.2.2.2.2.2.2.2.2.2.1
     [[("timestamp", "2026-02-09 12:00:00")]] {} _ (by decide),
   C4_error_type_total.2.2.2.2.2.2.2.2.2.2.2.2.1
     (.arr [.obj [("end_at", .num 1739102400), ("wh_del", .num 3500)]]) {} _ (by decide),
   C4_error_type_total.2.2.2.2.2.2.2.2.2.2.2.2.2.1
     [[("Update Time", "2026-02-09 12:00:00"), ("Generation(kWh)", "100")]] {} _ (by decide),
   C4_error_type_total.2.2.2.2.2.2.2.2.2.2.2.2.2.2.2
     (.obj [("result", .obj [("uploadTime", .str "2026-02-09 12:00:00")])]) {}
     [{ timestamp := "2026-02-09T12:00:00Z", kWh := 0, error_type := "unknown",
        error_code := some "unknown" }]
     { timestamp := "2026-02-09T12:00:00Z", kWh := 0, error_type := "unknown",
       error_code := some "unknown" }
     (by decide) (by decide)⟩

/-- C5: the counter-style (Solarman) vendor.  In any single call the
first emitted record carries `kWh = 0`; an emitted row whose cumulative
reading is strictly below the accumulator value yields `kWh = 0`, never a
negative value; and every emitted `kWh` is non-negative.  (The
accumulator is call-local by construction: `solarmanTransform` starts
every run from `prev_generation = None`.) -/
theorem C5_counter_first_and_reset :
    (∀ (rows : List Row) (o : Opts) (r : Record) (rest : List Record),
        solarmanTransform rows o = r :: rest → r.kWh = 0) ∧
    (∀ (o : Opts) (ih pv : ℚ) (row : Row) (p' : Option ℚ) (r : Record) (g : ℚ),
        solarmanStep o ih (some pv) row = (p', some r) →
        solarmanGeneration row = some g → g < pv → r.kWh = 0) ∧
    (∀ rows o r, r ∈ solarmanTransform rows o → 0 ≤ r.kWh) := by
  refine ⟨?_, ?_, ?_⟩
  · intro rows o r rest h
    exact solarmanGo_first o _ rows r rest h
  · intro o ih pv row p' r g hstep hg hlt
    obtain ⟨⟨g2, hg2, _, _, hks⟩, _⟩ := solarmanStep_emit o ih (some pv) row p' r hstep
    have hgg : g2 = g := by
      rw [hg] at hg2
      exact (Option.some.inj hg2).symm
    subst hgg
    rw [hks pv rfl, qsub_eq]
    exact max_eq_right (sub_nonpos.mpr (le_of_lt hlt))
  · intro rows o r h
    exact (solarmanTransform_inv rows o r h).2.2.2

/-- C5 witness: a one-row call emits `kWh = 0`; a concrete decreasing
step (reading 10 after accumulator 20) emits `kWh = 0`; a concrete
emitted record has non-negative `kWh`. -/
theorem C5_counter_first_and_reset_witness :
    ({ timestamp := "2026-02-09T12:00:00Z", kWh := 0, error_type := "unknown",
       error_code := some "inferred" } : Record).kWh = 0 ∧
    ({ timestamp := "2026-02-09T12:05:00Z", kWh := 0, error_type := "unknown",
       error_code := some "inferred" } : Record).kWh = 0 ∧
    (0 : ℚ) ≤
      ({ timestamp := "2026-02-09T12:00:00Z", kWh := 0, error_type := "unknown",
         error_code := some "inferred" } : Record).kWh :=
  ⟨C5_counter_first_and_reset.1
     [[("Update Time", "2026-02-09 12:00:00"), ("Generation(kWh)", "100")]] {} _ [] (by decide),
   C5_counter_first_and_reset.2.1 {} (Rat.divInt 5 60) 20
     [("Update Time", "2026-02-09 12:05:00"), ("Generation(kWh)", "10")] (some 10) _ 10
     (by decide) (by decide) (by decide),
   C5_counter_first_and_reset.2.2
     [[("Update Time", "2026-02-09 12:00:00"), ("Generation(kWh)", "100")]] {} _ (by decide)⟩

/-- C6: contrary to the claim (and to the dead
`generation_missing and power_w > 0` branch lower in the loop), a row
whose cumulative field is absent is skipped even when instantaneous power
is present: the `continue` fires first, so no record is emitted.  Here the
row has a parsable timestamp, no generation cell and `power = 1000` W, and
the call returns the empty list instead of an interval-estimated record. -/
theorem C6_missing_cumulative_row_skipped :
    solarmanTransform [[("Update Time", "2026-02-09 12:00:00"), ("Power(W)", "1000")]] {} = [] ∧
    solarmanGeneration [("Update Time", "2026-02-09 12:00:00"), ("Power(W)", "1000")] = none ∧
    toFloatStr (firstValue [("Update Time", "2026-02-09 12:00:00"), ("Power(W)", "1000")]
      ["power", "Power(W)", "Active Power", "Output Power"]) = some 1000 ∧
    toIso8601Field (firstValue [("Update Time", "2026-02-09 12:00:00"), ("Power(W)", "1000")]
      ["update_time", "Update Time", "Time", "Timestamp"]) none = some "2026-02-09T12:00:00Z" := by
  decide

/-- C7: the Enphase reporting-ratio thresholds.  With a positive expected
device count: ratio exactly 0.95 classifies `normal`, exactly 0.80
`warning`, 0.79 with a positive reporting count `critical`, a zero count
`offline`, and an absent count `offline`. -/
theorem C7_enphase_ratio_thresholds :
    (∀ d e : Int, 0 < e → (d : ℚ) / (e : ℚ) = 95 / 100 →
        enphaseDeriveStatus (some d) (some e) = "normal") ∧
    (∀ d e : Int, 0 < e → (d : ℚ) / (e : ℚ) = 80 / 100 →
        enphaseDeriveStatus (some d) (some e) = "warning") ∧
    (∀ d e : Int, 0 < e → (d : ℚ) / (e : ℚ) = 79 / 100 → 0 < d →
        enphaseDeriveStatus (some d) (some e) = "critical") ∧
    (∀ e : Int, 0 < e → enphaseDeriveStatus (some 0) (some e) = "offline") ∧
    (∀ e : Int, 0 < e → enphaseDeriveStatus none (some e) = "offline") := by
  have hq : ∀ d e : Int, qdiv (d : ℚ) (e : ℚ) = (d : ℚ) / (e : ℚ) := fun d e => qdiv_eq _ _
  refine ⟨?_, ?_, ?_, ?_, ?_⟩
  · intro d e he h
    unfold enphaseDeriveStatus
    dsimp only
    rw [if_neg (not_le.mpr he), hq, h, Rat.divInt_eq_div]
    rw [if_pos (by norm_num)]
  · intro d e he h
    unfold enphaseDeriveStatus
    dsimp only
    rw [if_neg (not_le.mpr he), hq, h, Rat.divInt_eq_div, Rat.divInt_eq_div]
    rw [if_neg (by norm_num), if_pos (by norm_num)]
  · intro d e he h hd
    unfold enphaseDeriveStatus
    dsimp only
    rw [if_neg (not_le.mpr he), hq, h, Rat.divInt_eq_div, Rat.divInt_eq_div]
    rw [if_neg (by norm_num), if_neg (by norm_num), if_pos hd]
  · intro e he
    unfold enphaseDeriveStatus
    dsimp only
    rw [if_neg (not_le.mpr he)]
    have h0 : qdiv ((0 : Int) : ℚ) (e : ℚ) = 0 := by
      rw [qdiv_eq]
      simp
    rw [h0, Rat.divInt_eq_div, Rat.divInt_eq_div]
    rw [if_neg (by norm_num), if_neg (by norm_num), if_neg (by norm_num)]
  · intro e he
    rfl

/-- C7 witness: the theorem applied at 19/20, 16/20, 79/100, 0 of 12 and
an absent count with 7 expected. -/
theorem C7_enphase_ratio_thresholds_witness :
    enphaseDeriveStatus (some 19) (some 20) = "normal" ∧
    enphaseDeriveStatus (some 16) (some 20) = "warning" ∧
    enphaseDeriveStatus (some 79) (some 100) = "critical" ∧
    enphaseDeriveStatus (some 0) (some 12) = "offline" ∧
    enphaseDeriveStatus none (some 7) = "offline" :=
  ⟨C7_enphase_ratio_thresholds.1 19 20 (by decide) (by norm_num),
   C7_enphase_ratio_thresholds.2.1 16 20 (by decide) (by norm_num),
   C7_enphase_ratio_thresholds.2.2.1 79 100 (by decide) (by norm_num) (by decide),
   C7_enphase_ratio_thresholds.2.2.2.1 12 (by decide),
   C7_enphase_ratio_thresholds.2.2.2.2 7 (by decide)⟩

/-- C1: the SolaxCloud path copies `yieldtoday` into `kWh` *without* the
claimed non-negativity clamp.  With `yieldtoday = -5/2` the transformer
returns a record whose `kWh` is the negative value verbatim — violating
the invariant that the repository's own validator enforces
(`kWh must be >= 0`). -/
theorem C1_solax_negative_yieldtoday :
    solaxTransform
        (.obj [("result", .obj [("uploadTime", .str "2026-02-09 12:00:00"),
                                ("yieldtoday", .num (Rat.divInt (-5) 2))])]) {} =
      .ok [{ timestamp := "2026-02-09T12:00:00Z", kWh := Rat.divInt (-5) 2,
             error_type := "unknown", error_code := some "unknown" }] ∧
    Rat.divInt (-5) 2 < 0 := by decide

/-- C2: the SolarEdge telemetry path copies the vendor `cosPhi` field into
`PF` *without* the claimed `[0, 1]` clamp (its `scale` is `None`, so the
value passes through verbatim).  With `cosPhi = -1/2` the emitted record
carries `PF = -1/2 < 0` — violating the bound that the repository's own
validator enforces (`Power factor must be between 0 and 1`). -/
theorem C2_solaredge_cosphi_unclamped :
    solarEdgeTransform
        (.obj [("data", .obj [("telemetries", .arr
          [.obj [("date", .str "2026-02-09 12:00:00"),
                 ("L1Data", .obj [("cosPhi", .num (Rat.divInt (-1) 2))])]])])]) {} =
      .ok [{ timestamp := "2026-02-09T12:00:00Z", kWh := 0, error_type := "unknown",
             PF := some (Rat.divInt (-1) 2) }] ∧
    Rat.divInt (-1) 2 < 0 := by decide

/-- C8 counterexample: a Huawei row with a parsable timestamp but no
inverter-state cell emits a record whose `error_code` is present with the
placeholder `"unknown"`, although no native vendor code was resolved —
falsifying "error_code is present only if a native code was resolved". -/
theorem C8_error_code_placeholder :
    huaweiTransform [[("timestamp", "2026-02-09 12:00:00")]] {} =
      [{ timestamp := "2026-02-09T12:00:00Z", kWh := 0, error_type := "unknown",
         error_code := some "unknown" }] ∧
    firstValue [("timestamp", "2026-02-09 12:00:00")]
      ["inverter_state", "Inverter State", "State", "status"] = none := by decide

/-- `a or b` with a string fallback is never `None` — the Python value
FIMER's snapshot branch passes to `_base_record` as its error code. -/
theorem pyOr_str_not_null (m : Json) (s : String) : (pyOr m (.str s)).isNull = false := by
  unfold pyOr
  split
  · rename_i h
    cases m <;> simp_all [Json.truthy, Json.isNull]
  · rfl

/-- The `L1Data` field loop touches only the six electrical fields, never
`error_code`. -/
theorem solarEdgeL1Fields_error_code (l1 : Json) (rec1 : Record) :
    (solarEdgeL1Fields l1 rec1).error_code = rec1.error_code := by
  unfold solarEdgeL1Fields
  cases toFloat (jget l1 "apparentPower") <;>
    cases toFloat (jget l1 "reactivePower") <;>
      cases toFloat (jget l1 "cosPhi") <;>
        cases toFloat (jget l1 "acVoltage") <;>
          cases toFloat (jget l1 "acCurrent") <;>
            cases toFloat (jget l1 "acFrequency") <;> rfl

/-- SolarEdge telemetry emits `error_code` *exactly when* the entry's
`operationMode` is non-`None`, stringified — the only-when-resolved
contract for this vendor's telemetry branch. -/
theorem solarEdgeTelemetryRecord_error_code (o : Opts) (ih : ℚ)
    (kvs : List (String × Json)) (r : Record)
    (h : solarEdgeTelemetryRecord o ih (.obj kvs) = .ok (some r)) :
    r.error_code = (if (jget (.obj kvs) "operationMode").isNull then none
                    else some (pyStr (jget (.obj kvs) "operationMode"))) := by
  unfold solarEdgeTelemetryRecord at h
  dsimp only [pyGet, Except.bind] at h
  cases hts : toIso8601 ((kvs.lookup "date").getD .null) o.timezone with
  | none =>
      rw [hts] at h
      exact absurd h (by simp)
  | some ts =>
      rw [hts] at h
      dsimp only at h
      have hr := Option.some.inj (Except.ok.inj h)
      subst hr
      rw [solarEdgeL1Fields_error_code]
      cases toFloat ((kvs.lookup "totalActivePower").getD .null) <;>
        simp [baseRecord, jget]

/-- The SolarEdge `energy.values` branch never emits `error_code`. -/
theorem solarEdgeEnergyValues_error_code (o : Opts) :
    ∀ (l : List Json) (rs : List Record) (r : Record),
      solarEdgeEnergyValues o l = .ok rs → r ∈ rs → r.error_code = none := by
  intro l
  induction l with
  | nil =>
      intro rs r h hr
      rw [solarEdgeEnergyValues] at h
      cases h
      simp at hr
  | cons v rest ih =>
      intro rs r h hr
      rw [solarEdgeEnergyValues] at h
      obtain ⟨dateV, _, h2⟩ := except_bind_ok h
      obtain ⟨valV, _, h3⟩ := except_bind_ok h2
      obtain ⟨tail, htail, h4⟩ := except_map_ok h3
      subst h4
      cases hts : toIso8601 dateV o.timezone with
      | some t =>
          cases hv : toFloat valV with
          | some x =>
              rw [hts, hv] at hr
              dsimp only at hr
              rcases List.mem_cons.mp hr with hre | hre
              · subst hre
                rfl
              · exact ih tail r htail hre
          | none =>
              rw [hts, hv] at hr
              exact ih tail r htail hr
      | none =>
          rw [hts] at hr
          cases hv : toFloat valV with
          | some x =>
              rw [hv] at hr
              exact ih tail r htail hr
          | none =>
              rw [hv] at hr
              exact ih tail r htail hr

/-- The SolarEdge `power.values` branch never emits `error_code`. -/
theorem solarEdgePowerValues_error_code (o : Opts) (ih : ℚ) :
    ∀ (l : List Json) (rs : List Record) (r : Record),
      solarEdgePowerValues o ih l = .ok rs → r ∈ rs → r.error_code = none := by
  intro l
  induction l with
  | nil =>
      intro rs r h hr
      rw [solarEdgePowerValues] at h
      cases h
      simp at hr
  | cons v rest ih2 =>
      intro rs r h hr
      rw [solarEdgePowerValues] at h
      obtain ⟨dateV, _, h2⟩ := except_bind_ok h
      obtain ⟨valV, _, h3⟩ := except_bind_ok h2
      cases hts : toIso8601 dateV o.timezone with
      | none =>
          rw [hts] at h3
          exact ih2 rs r h3 hr
      | some ts =>
          rw [hts] at h3
          dsimp only at h3
          obtain ⟨tail, htail, h4⟩ := except_map_ok h3
          subst h4
          rcases List.mem_cons.mp hr with hre | hre
          · subst hre
            cases toFloat valV <;> rfl
          · exact ih2 tail r htail hre

/-- The FIMER `series` branch never emits `error_code`. -/
theorem fimerSeries_error_code (o : Opts) :
    ∀ (l : List Json) (rs : List Record) (r : Record),
      fimerSeries o l = .ok rs → r ∈ rs → r.error_code = none := by
  intro l
  induction l with
  | nil =>
      intro rs r h hr
      rw [fimerSeries] at h
      cases h
      simp at hr
  | cons e rest ih =>
      intro rs r h hr
      rw [fimerSeries] at h
      obtain ⟨dateV, _, h2⟩ := except_bind_ok h
      cases hts : toIso8601 dateV o.timezone with
      | none =>
          rw [hts] at h2
          exact ih rs r h2 hr
      | some ts =>
          rw [hts] at h2
          dsimp only at h2
          obtain ⟨energyV, _, h3⟩ := except_bind_ok h2
          obtain ⟨unitV, _, h4⟩ := except_bind_ok h3
          obtain ⟨tail, htail, h5⟩ := except_map_ok h4
          subst h5
          rcases List.mem_cons.mp hr with hre | hre
          · subst hre
            rfl
          · exact ih tail r htail hre

/-- The FIMER `points` branch never emits `error_code`. -/
theorem fimerPoints_error_code (o : Opts) (ih : ℚ) :
    ∀ (l : List Json) (rs : List Record) (r : Record),
      fimerPoints o ih l = .ok rs → r ∈ rs → r.error_code = none := by
  intro l
  induction l with
  | nil =>
      intro rs r h hr
      rw [fimerPoints] at h
      cases h
      simp at hr
  | cons e rest ih2 =>
      intro rs r h hr
      rw [fimerPoints] at h
      obtain ⟨tsV, _, h2⟩ := except_bind_ok h
      cases hts : toIso8601 tsV o.timezone with
      | none =>
          rw [hts] at h2
          exact ih2 rs r h2 hr
      | some ts =>
          rw [hts] at h2
          dsimp only at h2
          obtain ⟨valV, _, h3⟩ := except_bind_ok h2
          obtain ⟨tail, htail, h4⟩ := except_map_ok h3
          subst h4
          rcases List.mem_cons.mp hr with hre | hre
          · subst hre
            rfl
          · exact ih2 tail r htail hre

/-- The FIMER snapshot branch *always* emits `error_code`: the value
passed to `_base_record` is `payload.get("message") or status`, and the
fallback `status` string (defaulting to `"UNKNOWN"`) is never `None`. -/
theorem fimerSnapshot_error_code (kvs : List (String × Json)) (o : Opts) (r : Record)
    (h : r ∈ fimerSnapshot kvs o) : r.error_code.isSome = true := by
  unfold fimerSnapshot at h
  dsimp only at h
  cases hts : toIso8601
      (pyOr (jget (Json.obj kvs) "lastReportedTimestamp") (jget (Json.obj kvs) "timestamp"))
      o.timezone with
  | none =>
      rw [hts] at h
      simp at h
  | some ts =>
      rw [hts] at h
      dsimp only at h
      rcases List.mem_singleton.mp h with rfl
      simp [baseRecord, pyOr_str_not_null]

/-- C8 (amended): every record always carries `timestamp`, `kWh` and
`error_type` (required fields of the record shape); `asset_id` is emitted
iff it was supplied non-empty.  `error_code` is per vendor: `_base_record`
itself stringifies a non-`None` resolved value and omits the field
otherwise; Enphase never emits it; SolarEdge emits it in the telemetry
branch exactly when the entry's `operationMode` is non-`None`
(stringified) and never in the energy/power branches; FIMER's series and
points branches never emit it, but FIMER's snapshot branch *always* emits
it, falling back to the upper-cased status string (default `"UNKNOWN"`)
when no message is resolved; and Huawei, Solarman, Switch and SolaxCloud
always emit it, substituting placeholder strings (`"unknown"` /
`"inferred"`) when no native code was resolved.  (Fronius, SMA and
SolisCloud forward the native field — possibly `None` — to
`_base_record`, so the `_base_record` conjuncts govern them.) -/
theorem C8_field_presence :
    (∀ ts kwh et aid, (baseRecord ts kwh et .null aid).error_code = none) ∧
    (∀ ts kwh et ec aid, ec.isNull = false →
        (baseRecord ts kwh et ec aid).error_code = some (pyStr ec)) ∧
    (∀ ts kwh et ec, (baseRecord ts kwh et ec none).asset_id = none) ∧
    (∀ ts kwh et ec, (baseRecord ts kwh et ec (some "")).asset_id = none) ∧
    (∀ ts kwh et ec a, a ≠ "" → (baseRecord ts kwh et ec (some a)).asset_id = some a) ∧
    (∀ rows o r, r ∈ huaweiTransform rows o →
        r.error_code.isSome = true ∧ r.asset_id = assetOpt o) ∧
    (∀ rows o r, r ∈ solarmanTransform rows o →
        r.error_code.isSome = true ∧ r.asset_id = assetOpt o) ∧
    (∀ f rows o r, r ∈ switchTransform f rows o →
        r.error_code.isSome = true ∧ r.asset_id = assetOpt o) ∧
    (∀ payload o rs r, solaxTransform payload o = .ok rs → r ∈ rs →
        r.error_code.isSome = true ∧ r.asset_id = assetOpt o) ∧
    (∀ payload o r, r ∈ enphaseTransform payload o →
        r.error_code = none ∧ r.asset_id = assetOpt o) ∧
    (∀ o ih kvs r, solarEdgeTelemetryRecord o ih (.obj kvs) = .ok (some r) →
        r.error_code = (if (jget (.obj kvs) "operationMode").isNull then none
                        else some (pyStr (jget (.obj kvs) "operationMode")))) ∧
    (∀ o l rs r, solarEdgeEnergyValues o l = .ok rs → r ∈ rs → r.error_code = none) ∧
    (∀ o ih l rs r, solarEdgePowerValues o ih l = .ok rs → r ∈ rs → r.error_code = none) ∧
    (∀ o l rs r, fimerSeries o l = .ok rs → r ∈ rs → r.error_code = none) ∧
    (∀ o ih l rs r, fimerPoints o ih l = .ok rs → r ∈ rs → r.error_code = none) ∧
    (∀ kvs o r, r ∈ fimerSnapshot kvs o → r.error_code.isSome = true) ∧
    (∀ o : Opts, assetOpt o = none ↔ (o.asset_id = none ∨ o.asset_id = some "")) := by
  refine ⟨fun ts kwh et aid => rfl, ?_, fun ts kwh et ec => rfl, fun ts kwh et ec => rfl,
    ?_, ?_, ?_, ?_, ?_, ?_, ?_, ?_, ?_, ?_, ?_, ?_, ?_⟩
  · intro ts kwh et ec aid h
    unfold baseRecord
    simp [Json.isNull] at h
    cases ec <;> simp_all [Json.isNull]
  · intro ts kwh et ec a ha
    unfold baseRecord
    simp [ha]
  · intro rows o r h
    exact ⟨(huaweiTransform_inv rows o r h).2.1, (huaweiTransform_inv rows o r h).2.2.1⟩
  · intro rows o r h
    exact ⟨(solarmanTransform_inv rows o r h).2.1, (solarmanTransform_inv rows o r h).2.2.1⟩
  · intro f rows o r h
    exact ⟨(switchTransform_inv f rows o r h).2.1, (switchTransform_inv f rows o r h).2.2.1⟩
  · intro payload o rs r h hr
    exact ⟨(solaxGo_inv payload o _ _ rs r h hr).2.1, (solaxGo_inv payload o _ _ rs r h hr).2.2⟩
  · intro payload o r h
    exact ⟨(enphaseTransform_inv payload o r h).2.1, (enphaseTransform_inv payload o r h).2.2.1⟩
  · intro o ih kvs r h
    exact solarEdgeTelemetryRecord_error_code o ih kvs r h
  · intro o l rs r h hr
    exact solarEdgeEnergyValues_error_code o l rs r h hr
  · intro o ih l rs r h hr
    exact solarEdgePowerValues_error_code o ih l rs r h hr
  · intro o l rs r h hr
    exact fimerSeries_error_code o l rs r h hr
  · intro o ih l rs r h hr
    exact fimerPoints_error_code o ih l rs r h hr
  · intro kvs o r h
    exact fimerSnapshot_error_code kvs o r h
  · intro o
    rcases o with ⟨aid, tzo, im, ed⟩
    rcases aid with _ | a
    · simp [assetOpt]
    · by_cases ha : a = ""
      · subst ha
        simp [assetOpt]
      · simp [assetOpt, ha]

/-- C8 witness: the amended behaviour at concrete inputs — `_base_record`
with a resolved native code and with a non-empty asset id, concrete
records of the placeholder-emitting and omitting transformers, a
SolarEdge telemetry record whose `operationMode` is `1` (stringified to
`"1"`), code-free SolarEdge energy/power and FIMER series/points records,
and a FIMER snapshot with no message whose `error_code` is the
`"UNKNOWN"` placeholder. -/
theorem C8_field_presence_witness :
    (baseRecord "2026-02-08T00:00:00Z" 1 "normal" (.str "E101") none).error_code = some "E101" ∧
    (baseRecord "2026-02-08T00:00:00Z" 1 "normal" .null (some "site-1")).asset_id = some "site-1" ∧
    (({ timestamp := "2026-02-09T12:00:00Z", kWh := 0, error_type := "unknown",
        error_code := some "unknown" } : Record).error_code.isSome = true ∧
      ({ timestamp := "2026-02-09T12:00:00Z", kWh := 0, error_type := "unknown",
         error_code := some "unknown" } : Record).asset_id = assetOpt {}) ∧
    (({ timestamp := "2026-02-09T12:00:00Z", kWh := 0, error_type := "unknown",
        error_code := some "inferred" } : Record).error_code.isSome = true ∧
      ({ timestamp := "2026-02-09T12:00:00Z", kWh := 0, error_type := "unknown",
         error_code := some "inferred" } : Record).asset_id = assetOpt {}) ∧
    (({ timestamp := "2025-02-09T12:00:00Z", kWh := Rat.divInt 7 2,
        error_type := "offline" } : Record).error_code = none ∧
      ({ timestamp := "2025-02-09T12:00:00Z", kWh := Rat.divInt 7 2,
         error_type := "offline" } : Record).asset_id = assetOpt {}) ∧
    ({ timestamp := "2026-02-09T12:00:00Z", kWh := 0, error_type := "unknown",
       error_code := some "1" } : Record).error_code = some "1" ∧
    ({ timestamp := "2026-02-08T00:00:00Z", kWh := 12,
       error_type := "normal" } : Record).error_code = none ∧
    ({ timestamp := "2026-02-08T00:00:00Z", kWh := 2, error_type := "normal",
       kW := some 2 } : Record).error_code = none ∧
    ({ timestamp := "2026-02-08T00:00:00Z", kWh := 15,
       error_type := "normal" } : Record).error_code = none ∧
    ({ timestamp := "2026-02-08T00:00:00Z", kWh := 3,
       error_type := "normal" } : Record).error_code = none ∧
    ({ timestamp := "2026-02-09T12:00:00Z", kWh := 0, error_type := "unknown",
       error_code := some "UNKNOWN" } : Record).error_code.isSome = true :=
  ⟨C8_field_presence.2.1 "2026-02-08T00:00:00Z" 1 "normal" (.str "E101") none (by decide),
   C8_field_presence.2.2.2.2.1 "2026-02-08T00:00:00Z" 1 "normal" .null "site-1" (by decide),
   C8_field_presence.2.2.2.2.2.1 [[("timestamp", "2026-02-09 12:00:00")]] {} _ (by decide),
   C8_field_presence.2.2.2.2.2.2.1
     [[("Update Time", "2026-02-09 12:00:00"), ("Generation(kWh)", "100")]] {} _ (by decide),
   C8_field_presence.2.2.2.2.2.2.2.2.2.1
     (.arr [.obj [("end_at", .num 1739102400), ("wh_del", .num 3500)]]) {} _ (by decide),
   C8_field_presence.2.2.2.2.2.2.2.2.2.2.1 {} 1
     [("date", .str "2026-02-09 12:00:00"), ("operationMode", .num 1)]
     { timestamp := "2026-02-09T12:00:00Z", kWh := 0, error_type := "unknown",
       error_code := some "1" } (by decide),
   C8_field_presence.2.2.2.2.2.2.2.2.2.2.2.1 {}
     [.obj [("date", .str "2026-02-08"), ("value", .num 12000)]]
     [{ timestamp := "2026-02-08T00:00:00Z", kWh := 12, error_type := "normal" }]
     { timestamp := "2026-02-08T00:00:00Z", kWh := 12, error_type := "normal" }
     (by decide) (by decide),
   C8_field_presence.2.2.2.2.2.2.2.2.2.2.2.2.1 {} 1
     [.obj [("date", .str "2026-02-08"), ("value", .num 2000)]]
     [{ timestamp := "2026-02-08T00:00:00Z", kWh := 2, error_type := "normal", kW := some 2 }]
     { timestamp := "2026-02-08T00:00:00Z", kWh := 2, error_type := "normal", kW := some 2 }
     (by decide) (by decide),
   C8_field_presence.2.2.2.2.2.2.2.2.2.2.2.2.2.1 {}
     [.obj [("date", .str "2026-02-08"), ("energy", .num 15000), ("unit", .str "Wh")]]
     [{ timestamp := "2026-02-08T00:00:00Z", kWh := 15, error_type := "normal" }]
     { timestamp := "2026-02-08T00:00:00Z", kWh := 15, error_type := "normal" }
     (by decide) (by decide),
   C8_field_presence.2.2.2.2.2.2.2.2.2.2.2.2.2.2.1 {} 1
     [.obj [("timestamp", .str "2026-02-08"), ("value", .num 3000)]]
     [{ timestamp := "2026-02-08T00:00:00Z", kWh := 3, error_type := "normal" }]
     { timestamp := "2026-02-08T00:00:00Z", kWh := 3, error_type := "normal" }
     (by decide) (by decide),
   C8_field_presence.2.2.2.2.2.2.2.2.2.2.2.2.2.2.2.1
     [("timestamp", .str "2026-02-09 12:00:00")] {}
     { timestamp := "2026-02-09T12:00:00Z", kWh := 0, error_type := "unknown",
       error_code := some "UNKNOWN" } (by decide)⟩

/-- C9: registry dispatch lower-cases the identifier; a registered
identifier (any letter case) dispatches to a transformer, an unknown one
fails with the `ValueError` whose message carries the full identifier
list (and no records are produced, the call being an `Except.error`). -/
theorem C9_registry_dispatch :
    (∀ source : String, pyLower source ∈ supportedSources →
        ∃ v, getTransformer source = .ok v) ∧
    (∀ source : String, pyLower source ∉ supportedSources →
        getTransformer source = .error (unknownSourceMessage source)) ∧
    supportedSources = ["huawei", "enphase", "solarman", "switch", "solaxcloud", "solax",
      "fimer", "auroravision", "solaredge", "fronius", "sma", "solis", "soliscloud"] ∧
    (∀ source : String, unknownSourceMessage source =
        "Unknown source " ++ source ++ ". Supported sources: " ++
          String.intercalate ", " supportedSources) := by
  refine ⟨?_, ?_, by decide, fun source => rfl⟩
  · intro source h
    cases hl : registry.lookup (pyLower source) with
    | some v =>
        refine ⟨v, ?_⟩
        unfold getTransformer
        rw [hl]
    | none => exact absurd h ((lookup_eq_none_iff registry (pyLower source)).mp hl)
  · intro source h
    cases hl : registry.lookup (pyLower source) with
    | some v =>
        exfalso
        have hnone : registry.lookup (pyLower source) = none :=
          (lookup_eq_none_iff registry (pyLower source)).mpr h
        rw [hnone] at hl
        cases hl
    | none =>
        unfold getTransformer
        rw [hl]

/-- C9 witness: `"HUAWEI"` (upper case) dispatches; the unknown key
`"not-a-real-source"` yields the enumerating error. -/
theorem C9_registry_dispatch_witness :
    (∃ v, getTransformer "HUAWEI" = .ok v) ∧
    getTransformer "not-a-real-source" = .error (unknownSourceMessage "not-a-real-source") :=
  ⟨C9_registry_dispatch.1 "HUAWEI" (by decide),
   C9_registry_dispatch.2.1 "not-a-real-source" (by decide)⟩

/-- C10: for a top-level array payload, the loop body evaluates
`payload.get("code")` on the list before the dict guard: as soon as one
(dict) entry has a resolvable timestamp the transform raises
`AttributeError`; when no entry's timestamp resolves the loop never
reaches that line and the call returns an empty list normally. -/
theorem C10_solax_array_payload :
    (∀ (xs : List Json) (o : Opts),
        (∃ e ∈ xs.filter Json.isObj, (solaxEntryTs o e).isSome = true) →
        solaxTransform (.arr xs) o = .error "AttributeError") ∧
    (∀ (xs : List Json) (o : Opts),
        (∀ e ∈ xs.filter Json.isObj, solaxEntryTs o e = none) →
        solaxTransform (.arr xs) o = .ok []) := by
  constructor
  · intro xs o h
    exact solaxGo_arr_raises xs o _ _ h
  · intro xs o h
    exact solaxGo_arr_skips xs o _ _ h

/-- C10 witness: one array payload whose single dict entry has a valid
`uploadTime` raises; one whose entries have no resolvable timestamp
returns `ok []`. -/
theorem C10_solax_array_payload_witness :
    solaxTransform (.arr [.obj [("uploadTime", .str "2026-02-09 12:00:00")]]) {} =
      .error "AttributeError" ∧
    solaxTransform (.arr [.obj [("uploadTime", .str "garbage")], .num 3]) {} = .ok [] :=
  ⟨C10_solax_array_payload.1 [.obj [("uploadTime", .str "2026-02-09 12:00:00")]] {} (by decide),
   C10_solax_array_payload.2 [.obj [("uploadTime", .str "garbage")], .num 3] {} (by decide)⟩

end ODSE
